import Mathlib

/-!
Verification development for the Gherkin feature-file checker (`GV8.py`).

The core under study is `TestReport` (report data model, error totals,
serialization) and `GherkinChecker.process_file` (the line-by-line scanner).
We give a shallow embedding of that core: Python strings become `String`,
line numbers become `Int` (Python ints), the mutable report/scanner state
becomes explicit state passing, and the three regular expressions used by
the scanner (`<"[^"]+">`, `"[^"]*"`, `'[^']*'`, and `\b\w+\b`) are modelled
by explicit left-to-right scanners with the same leftmost-match semantics.

Python `set(...)` iteration order is unspecified; wherever the source
iterates over a set (`set(placeholders_used)`, the spell-check word set)
we fix first-seen order, which agrees with the source on the multiset of
emitted diagnostics and is deterministic.
-/

namespace GV8

/-! ### Python string primitives -/

/-- The whitespace characters stripped by Python's `str.strip()` (ASCII part). -/
def isPySpace (c : Char) : Bool :=
  c = ' ' || c = '\t' || c = '\n' || c = '\r' || c = '\x0b' || c = '\x0c'

/-- Python `str.strip()`. -/
def pyStrip (s : String) : String :=
  String.mk (((s.data.dropWhile isPySpace).reverse.dropWhile isPySpace).reverse)

/-- Python `str.strip(chars)`: drop characters of `cs` from both ends. -/
def pyStripChars (cs : List Char) (s : String) : String :=
  String.mk (((s.data.dropWhile (· ∈ cs)).reverse.dropWhile (· ∈ cs)).reverse)

/-- Python `str.lower()` for one character (ASCII case mapping; the
scanner's inputs are ASCII). -/
def pyCharLower (c : Char) : Char :=
  if 'A' ≤ c ∧ c ≤ 'Z' then Char.ofNat (c.toNat + 32) else c

/-- Python `str.lower()`. -/
def pyLower (s : String) : String :=
  String.mk (s.data.map pyCharLower)

/-- Python `line.split('|')` (empty segments kept, as in Python). -/
def splitPipeAux : List Char → List Char → List String
  | cur, [] => [String.mk cur.reverse]
  | cur, c :: cs =>
    if c = '|' then String.mk cur.reverse :: splitPipeAux [] cs
    else splitPipeAux (c :: cur) cs

def pySplitPipe (s : String) : List String :=
  splitPipeAux [] s.data

/-- Python `str.startswith`. -/
def pyStartsWith (s p : String) : Bool :=
  p.data.isPrefixOf s.data

/-- Python `str.endswith`. -/
def pyEndsWith (s p : String) : Bool :=
  p.data.isSuffixOf s.data

/-- Substring test on character lists: does `pat` occur inside the list? -/
def listContainsSub (pat : List Char) : List Char → Bool
  | [] => pat.isEmpty
  | c :: cs => pat.isPrefixOf (c :: cs) || listContainsSub pat cs

/-- Python `pat in hay` (substring containment). -/
def strContains (hay pat : String) : Bool :=
  listContainsSub pat.data hay.data

/-! ### The scanner's regular expressions

`re.findall` / `re.sub` scan left to right: at each position they try the
pattern; on a match they consume it, otherwise they advance one character.
We model a pattern as a function matching at the head of a character list,
returning the matched span and the remainder.  A fuel argument (the input
length suffices, since every match here is non-empty) makes the scanners
structurally total. -/

/-- One matching step of `q[^q]*q` (used with `q = '"'` and `q = '\''`):
an opening `q`, a maximal run of non-`q` characters, and a closing `q`. -/
def matchQuoted (q : Char) : List Char → Option (List Char × List Char)
  | [] => none
  | c :: cs =>
    if c = q then
      match cs.dropWhile (· ≠ q) with
      | _ :: rest => some (q :: (cs.takeWhile (· ≠ q) ++ [q]), rest)
      | [] => none
    else none

/-- One matching step of `<"[^"]+">`. -/
def matchPlaceholder : List Char → Option (List Char × List Char)
  | '<' :: '"' :: cs =>
    let inner := cs.takeWhile (· ≠ '"')
    if inner.isEmpty then none
    else
      match cs.dropWhile (· ≠ '"') with
      | '"' :: '>' :: rest => some ('<' :: '"' :: (inner ++ ['"', '>']), rest)
      | _ => none
  | _ => none

/-- `"[^"]*"` — the `fixed_value_pattern`. -/
def matchFixed : List Char → Option (List Char × List Char) :=
  matchQuoted '"'

/-- `'[^']*'` — the `bad_placeholder_pattern`. -/
def matchBadPlaceholder : List Char → Option (List Char × List Char) :=
  matchQuoted '\''

/-- All matches of a pattern, scanning left to right (`re.findall`). -/
def scanAll (m : List Char → Option (List Char × List Char)) :
    Nat → List Char → List (List Char)
  | 0, _ => []
  | _ + 1, [] => []
  | fuel + 1, c :: cs =>
    match m (c :: cs) with
    | some (tok, rest) => tok :: scanAll m fuel rest
    | none => scanAll m fuel cs

/-- Remove all matches of a pattern (`re.sub(pattern, '', s)`). -/
def scanRemove (m : List Char → Option (List Char × List Char)) :
    Nat → List Char → List Char
  | 0, cs => cs
  | _ + 1, [] => []
  | fuel + 1, c :: cs =>
    match m (c :: cs) with
    | some (_, rest) => scanRemove m fuel rest
    | none => c :: scanRemove m fuel cs

/-- `re.findall(pattern, s)` as strings. -/
def pyFindAll (m : List Char → Option (List Char × List Char)) (s : String) :
    List String :=
  (scanAll m s.data.length s.data).map String.mk

/-- `re.sub(pattern, '', s)`. -/
def pySub (m : List Char → Option (List Char × List Char)) (s : String) : String :=
  String.mk (scanRemove m s.data.length s.data)

/-- A word character for `\b\w+\b` (`[A-Za-z0-9_]`; inputs are ASCII). -/
def isWordChar (c : Char) : Bool :=
  c.isAlphanum || c = '_'

/-- The maximal runs of word characters: `re.findall(r"\b\w+\b", s)`. -/
def wordRuns : Nat → List Char → List String
  | 0, _ => []
  | _ + 1, [] => []
  | fuel + 1, c :: cs =>
    if isWordChar c then
      String.mk (c :: cs.takeWhile isWordChar) ::
        wordRuns fuel (cs.dropWhile isWordChar)
    else
      wordRuns fuel cs

/-- `word_pattern.findall(s)`. -/
def pyWords (s : String) : List String :=
  wordRuns s.data.length s.data

/-- Deduplication in first-seen order (our deterministic rendering of a
Python `set` built from a list). -/
def dedupFS (seen : List String) : List String → List String
  | [] => []
  | x :: xs => if x ∈ seen then dedupFS seen xs else x :: dedupFS (x :: seen) xs

/-- Association-list lookup (Python `dict` membership / indexing; keys are
inserted at most once below, so first match is the entry). -/
def lookupStr {α : Type} (k : String) : List (String × α) → Option α
  | [] => none
  | (k', v) :: rest => if k' = k then some v else lookupStr k rest

/-- Index of the last occurrence of `x` in `l`, or `-1`
(the value `({h: idx for idx, h in enumerate(l)}).get(x, -1)`: later
duplicate keys overwrite earlier ones). -/
def lastIdxAux (x : String) : List String → Int → Int → Int
  | [], _, acc => acc
  | h :: t, i, acc => lastIdxAux x t (i + 1) (if h = x then i else acc)

def lastIdx (l : List String) (x : String) : Int :=
  lastIdxAux x l 0 (-1)

/-- `next((idx for idx, step in enumerate(steps) if ph in step), -1)`. -/
def firstIdxContainingAux (ph : String) : Int → List String → Int
  | _, [] => -1
  | k, s :: ss => if strContains s ph then k else firstIdxContainingAux ph (k + 1) ss

def firstIdxContaining (steps : List String) (ph : String) : Int :=
  firstIdxContainingAux ph 0 steps

/-! ### Data model (`TestReport`) -/

/-- An issue `(issue_type, description, line_num)`. -/
abbrev Issue := String × String × Int

/-- A misspelling record `(word, line_num, suggestions)`. -/
abbrev Misspelling := String × Int × List String

structure Stats where
  totalLines : Nat
  scenarios : Nat
  steps : Nat
  totalIterations : Nat
  deriving DecidableEq, Repr

/-- The `enabled_checks` mapping (fixed key set in the source). -/
structure EnabledChecks where
  checkSyntax : Bool
  checkMisspelled : Bool
  checkPlaceholderMismatch : Bool
  checkPlaceholderOrder : Bool
  checkInvalidPlaceholder : Bool
  checkRepeatedWord : Bool
  checkDriveCycle : Bool
  checkSuccessCriteria : Bool
  checkDuplicateScenario : Bool
  deriving DecidableEq, Repr

/-- The default `enabled_checks` dictionary (all checks on). -/
def defaultEnabledChecks : EnabledChecks :=
  ⟨true, true, true, true, true, true, true, true, true⟩

structure TestReport where
  issues : List Issue
  misspelledWords : List Misspelling
  stats : Stats
  timestamp : String
  filename : String
  featureType : String
  enabledChecks : EnabledChecks
  deriving DecidableEq, Repr

/-- `TestReport.__init__` (the timestamp is taken as a parameter: the real
constructor reads the wall clock, which is outside the embedding). -/
def mkTestReport (enabled : Option EnabledChecks) (ts : String) : TestReport where
  issues := []
  misspelledWords := []
  stats := ⟨0, 0, 0, 0⟩
  timestamp := ts
  filename := ""
  featureType := "standard"
  enabledChecks := enabled.getD defaultEnabledChecks

/-- `TestReport.add_issue`. -/
def addIssue (r : TestReport) (issueType description : String) (lineNum : Int) :
    TestReport :=
  { r with issues := r.issues ++ [(issueType, description, lineNum)] }

/-- `TestReport.add_misspelled`. -/
def addMisspelled (r : TestReport) (word : String) (lineNum : Int)
    (suggestions : List String) : TestReport :=
  { r with misspelledWords := r.misspelledWords ++ [(word, lineNum, suggestions)] }

/-- `TestReport.update_stats`. -/
def updateStats (r : TestReport) (totalLines scenarios steps totalIterations : Nat) :
    TestReport :=
  { r with stats := ⟨totalLines, scenarios, steps, totalIterations⟩ }

/-- `TestReport.set_filename`. -/
def setFilename (r : TestReport) (filename : String) : TestReport :=
  { r with filename := filename }

/-- `TestReport.set_feature_type`. -/
def setFeatureType (r : TestReport) (featureType : String) : TestReport :=
  { r with featureType := featureType }

/-- `len([i for i in issues if i[0] == k])`. -/
def countKind (issues : List Issue) (k : String) : Nat :=
  (issues.filter (fun x => x.1 = k)).length

/-- `TestReport.get_total_errors`. -/
def getTotalErrors (r : TestReport) : Nat :=
  (if r.enabledChecks.checkMisspelled then r.misspelledWords.length else 0)
  + (if r.enabledChecks.checkSyntax then countKind r.issues "Syntax Error" else 0)
  + (if r.enabledChecks.checkPlaceholderMismatch then
      countKind r.issues "Placeholder Mismatch" else 0)
  + (if r.enabledChecks.checkPlaceholderOrder then
      countKind r.issues "Placeholder Order" else 0)
  + (if r.enabledChecks.checkInvalidPlaceholder then
      countKind r.issues "Invalid Placeholder Syntax" else 0)
  + (if r.enabledChecks.checkRepeatedWord then
      countKind r.issues "Repeated Word" else 0)
  + (if r.enabledChecks.checkDriveCycle ∧ r.featureType = "drive_cycle" then
      (r.issues.filter
        (fun x => x.1 = "Syntax Error" ∧ strContains x.2.1 "Drive Cycle")).length
     else 0)
  + (if r.enabledChecks.checkSuccessCriteria ∧ r.featureType = "success_criteria" then
      (r.issues.filter
        (fun x => x.1 = "Syntax Error" ∧ strContains x.2.1 "Success Criteria")).length
     else 0)
  + (if r.enabledChecks.checkDuplicateScenario then
      countKind r.issues "Duplicate Scenario" else 0)

/-! ### `TestReport.generate_report` -/

/-- A JSON section entry `{"line": ..., "description": ...}`. -/
abbrev JsonEntry := Int × String

/-- The structured object returned for `format == "json"`. -/
structure JsonReport where
  timestamp : String
  filename : String
  totalErrors : Nat
  misspelledWords : List Misspelling
  syntaxErrors : List JsonEntry
  placeholderMismatches : List JsonEntry
  placeholderOrders : List JsonEntry
  invalidPlaceholders : List JsonEntry
  repeatedWords : List JsonEntry
  driveCycleErrors : List JsonEntry
  successCriteriaErrors : List JsonEntry
  duplicateScenarios : List JsonEntry
  stats : Stats
  deriving DecidableEq, Repr

inductive ReportOutput where
  | text (content : String)
  | json (value : JsonReport)
  deriving DecidableEq, Repr

/-- One text section: `title:\n` then either `" - None found\n"` or the
newline-joined ` - Line {n}: {description}` items, then a blank line. -/
def issueSection (title : String) (items : List Issue) : String :=
  title ++ ":\n"
    ++ (if items = [] then " - None found\n"
        else String.intercalate "\n"
          (items.map (fun x => " - Line " ++ toString x.2.2 ++ ": " ++ x.2.1)))
    ++ "\n\n"

/-- The misspelled-words section of the text report. -/
def misspelledSection (ms : List Misspelling) : String :=
  "Misspelled Words:\n"
    ++ (if ms = [] then " - None found\n"
        else String.intercalate "\n"
          (ms.map (fun m => " - Line " ++ toString m.2.1 ++ ": '" ++ m.1
            ++ "' [Suggestions: " ++ String.intercalate ", " m.2.2 ++ "]")))
    ++ "\n\n"

/-- The `format == "text"` report body. -/
def textReport (r : TestReport) : String :=
  "Gherkin Feature File Analysis Report\nGenerated: " ++ r.timestamp
    ++ "\nAnalyzed File: " ++ r.filename
    ++ "\nTotal Errors Found: " ++ toString (getTotalErrors r)
    ++ "\n" ++ String.mk (List.replicate 50 '-') ++ "\n\n"
  ++ (if r.enabledChecks.checkMisspelled then misspelledSection r.misspelledWords
      else "")
  ++ (if r.enabledChecks.checkSyntax then
      issueSection "Syntax Errors" (r.issues.filter (fun x => x.1 = "Syntax Error"))
      else "")
  ++ (if r.enabledChecks.checkPlaceholderMismatch then
      issueSection "Placeholder Mismatch Check"
        (r.issues.filter (fun x => x.1 = "Placeholder Mismatch"))
      else "")
  ++ (if r.enabledChecks.checkPlaceholderOrder then
      issueSection "Placeholder Order Check"
        (r.issues.filter (fun x => x.1 = "Placeholder Order"))
      else "")
  ++ (if r.enabledChecks.checkInvalidPlaceholder then
      issueSection "Invalid Placeholder Syntax Check"
        (r.issues.filter (fun x => x.1 = "Invalid Placeholder Syntax"))
      else "")
  ++ (if r.enabledChecks.checkRepeatedWord then
      issueSection "Repeated Word Check"
        (r.issues.filter (fun x => x.1 = "Repeated Word"))
      else "")
  ++ (if r.enabledChecks.checkDriveCycle ∧ r.featureType = "drive_cycle" then
      issueSection "Drive Cycle Format Check"
        (r.issues.filter
          (fun x => x.1 = "Syntax Error" ∧ strContains x.2.1 "Drive Cycle"))
      else "")
  ++ (if r.enabledChecks.checkSuccessCriteria ∧ r.featureType = "success_criteria" then
      issueSection "Success Criteria Format Check"
        (r.issues.filter
          (fun x => x.1 = "Syntax Error" ∧ strContains x.2.1 "Success Criteria"))
      else "")
  ++ (if r.enabledChecks.checkDuplicateScenario then
      issueSection "Duplicate Scenario Check"
        (r.issues.filter (fun x => x.1 = "Duplicate Scenario"))
      else "")
  ++ "File Statistics:\n - Total Lines: " ++ toString r.stats.totalLines
  ++ "\n - Scenarios: " ++ toString r.stats.scenarios
  ++ "\n - Steps: " ++ toString r.stats.steps
  ++ "\n - Total Iterations in Examples: " ++ toString r.stats.totalIterations
  ++ "\n"

/-- `{"line": i[2], "description": i[1]}` projection of an issue list. -/
def jsonEntries (issues : List Issue) (k : String) : List JsonEntry :=
  (issues.filter (fun x => x.1 = k)).map (fun x => (x.2.2, x.2.1))

/-- `TestReport.generate_report`: `"text"` and `"json"` are supported;
anything else raises `ValueError(f"Unsupported report format: {format}")`. -/
def generateReport (r : TestReport) (format : String) : Except String ReportOutput :=
  if format = "text" then
    .ok (.text (textReport r))
  else if format = "json" then
    .ok (.json
      { timestamp := r.timestamp
        filename := r.filename
        totalErrors := getTotalErrors r
        misspelledWords :=
          if r.enabledChecks.checkMisspelled then r.misspelledWords else []
        syntaxErrors :=
          if r.enabledChecks.checkSyntax then jsonEntries r.issues "Syntax Error"
          else []
        placeholderMismatches :=
          if r.enabledChecks.checkPlaceholderMismatch then
            jsonEntries r.issues "Placeholder Mismatch" else []
        placeholderOrders :=
          if r.enabledChecks.checkPlaceholderOrder then
            jsonEntries r.issues "Placeholder Order" else []
        invalidPlaceholders :=
          if r.enabledChecks.checkInvalidPlaceholder then
            jsonEntries r.issues "Invalid Placeholder Syntax" else []
        repeatedWords :=
          if r.enabledChecks.checkRepeatedWord then
            jsonEntries r.issues "Repeated Word" else []
        driveCycleErrors :=
          if r.enabledChecks.checkDriveCycle ∧ r.featureType = "drive_cycle" then
            (r.issues.filter
              (fun x => x.1 = "Syntax Error" ∧ strContains x.2.1 "Drive Cycle")).map
              (fun x => (x.2.2, x.2.1))
          else []
        successCriteriaErrors :=
          if r.enabledChecks.checkSuccessCriteria
              ∧ r.featureType = "success_criteria" then
            (r.issues.filter
              (fun x => x.1 = "Syntax Error"
                ∧ strContains x.2.1 "Success Criteria")).map
              (fun x => (x.2.2, x.2.1))
          else []
        duplicateScenarios :=
          if r.enabledChecks.checkDuplicateScenario then
            jsonEntries r.issues "Duplicate Scenario" else []
        stats := r.stats })
  else
    .error ("Unsupported report format: " ++ format)

/-! ### `GherkinChecker` -/

/-- The checker's injected collaborators and settings
(`GherkinChecker.__init__`): the spellcheck capability is modelled as the
pair `check`/`suggest`, with `hasSpellchecker` reflecting the truthiness of
`self.spellchecker`.  `spellCache` is the shared cache's contents at scan
start (the single-scan embedding threads it through the state; the
`spell_lock` mutual-exclusion discipline is a concurrency concern outside a
single sequential scan). -/
structure CheckerConfig where
  hasSpellchecker : Bool
  spellCache : List (String × List String)
  customWords : List String
  featureType : String
  spellcheckEnabled : Bool
  check : String → Bool
  suggest : String → List String

/-- `GherkinChecker.__init__(feature_type=...)`: the tag is stored verbatim,
with no validation. -/
def mkGherkinChecker (spellCache : List (String × List String))
    (customWords : List String) (featureType : String)
    (spellcheckEnabled : Bool) (hasSpellchecker : Bool)
    (check : String → Bool) (suggest : String → List String) : CheckerConfig where
  hasSpellchecker := hasSpellchecker
  spellCache := spellCache
  customWords := customWords
  featureType := featureType
  spellcheckEnabled := spellcheckEnabled
  check := check
  suggest := suggest

/-- The local variables of the `process_file` loop. -/
structure ScanState where
  scenarios : Nat
  steps : Nat
  totalIterations : Nat
  scenarioDict : List (String × Int)
  currentScenario : Option String
  currentSteps : List String
  inExamples : Bool
  examplesHeaders : Option (List String)
  scenarioStartLine : Int
  hasFeature : Bool
  givenCount : Nat
  whenCount : Nat
  thenCount : Nat
  andCount : Nat
  spellCache : List (String × List String)

/-- The loop-variable initialization at the top of `process_file`. -/
def initialScanState (cache : List (String × List String)) : ScanState where
  scenarios := 0
  steps := 0
  totalIterations := 0
  scenarioDict := []
  currentScenario := none
  currentSteps := []
  inExamples := false
  examplesHeaders := none
  scenarioStartLine := 0
  hasFeature := false
  givenCount := 0
  whenCount := 0
  thenCount := 0
  andCount := 0
  spellCache := cache

/-- The keyword exclusion list used by the repeated-word and spellcheck
blocks. -/
def gherkinKeywords : List String :=
  ["Feature", "Scenario", "Given", "When", "Then", "And", "But",
   "Background", "Examples", "Scenario Outline"]

def scGivenMsg (n : Nat) : String :=
  "Success Criteria must have exactly 1 Given, found " ++ toString n

def scWhenMsg (n : Nat) : String :=
  "Success Criteria must have exactly 1 When, found " ++ toString n

def noFeatureMsg : String := "No Feature keyword found in file"

def dcWhenMsg : String := "When not allowed in Drive Cycle format"

def dcThenMsg : String := "Then not allowed in Drive Cycle format"

/-- `ph.strip('<>').strip('"')`. -/
def phName (ph : String) : String :=
  pyStripChars ['"'] (pyStripChars ['<', '>'] ph)

/-- `[h.strip() for h in line.split('|')[1:-1]]`. -/
def parseHeaders (line : String) : List String :=
  (((pySplitPipe line).drop 1).dropLast).map pyStrip

/-- The placeholders collected across the buffered step texts, in order
(`placeholders_used`). -/
def placeholdersUsed : List String → List String
  | [] => []
  | step :: rest => pyFindAll matchPlaceholder step ++ placeholdersUsed rest

/-- The placeholder-mismatch loop over `set(placeholders_used)` (given here
already deduplicated, in first-seen order). -/
def mismatchGo (headers steps : List String) (start i : Int) :
    List String → List Issue
  | [] => []
  | ph :: rest =>
    (if phName ph ∈ headers then []
     else
       let stepIndex := firstIdxContaining steps ph
       [("Placeholder Mismatch",
         "Placeholder '" ++ ph
           ++ "' does not match any column heading in the Examples table (case-sensitive)",
         if stepIndex ≠ -1 then stepIndex + start else i)])
    ++ mismatchGo headers steps start i rest

/-- The placeholder-order loop (`last_pos` walk over `placeholders_used`). -/
def orderGo (headers steps : List String) (start i : Int) :
    Int → List String → List Issue
  | _, [] => []
  | lastPos, ph :: rest =>
    let currentPos := lastIdx headers (phName ph)
    if currentPos = -1 then orderGo headers steps start i lastPos rest
    else
      (if currentPos < lastPos then
        let stepIndex := firstIdxContaining steps ph
        [("Placeholder Order",
          "Placeholder '" ++ ph
            ++ "' used out of sequence relative to Examples table column headings",
          if stepIndex ≠ -1 then stepIndex + start else i)]
       else [])
      ++ orderGo headers steps start i (max lastPos currentPos) rest

/-- Python truthiness of `examples_headers` (`None` or `[]` are falsy). -/
def headersFalsy : Option (List String) → Bool
  | none => true
  | some [] => true
  | some (_ :: _) => false

/-- `any(line.startswith(k) for k in ("Given", "When", "Then", "And", "But"))`. -/
def isStepLine (line : String) : Bool :=
  pyStartsWith line "Given" || pyStartsWith line "When" || pyStartsWith line "Then"
    || pyStartsWith line "And" || pyStartsWith line "But"

/-- The malformed-placeholder loop body (lines 359–371 of the source). -/
def badGo (i : Int) : List String → List Issue
  | [] => []
  | bp :: rest =>
    let bpClean := pyStripChars ['\''] bp
    (if pyStartsWith bp "'" ∧ pyEndsWith bp "'" then
       [("Invalid Placeholder Syntax",
         "Placeholder '" ++ bp ++ "' should use angle brackets with double quotes (e.g., <\""
           ++ bpClean ++ "\">) instead of single quotes", i)]
     else if pyStartsWith bp "'" ∧ ¬ pyEndsWith bp "'" then
       [("Invalid Placeholder Syntax",
         "Placeholder '" ++ bp ++ "' is missing a closing quote", i)]
     else if pyEndsWith bp "'" ∧ ¬ pyStartsWith bp "'" then
       [("Invalid Placeholder Syntax",
         "Placeholder '" ++ bp ++ "' is missing an opening quote", i)]
     else [])
    ++ badGo i rest

/-- `bad_placeholders = self.bad_placeholder_pattern.findall(line)` feeding
the loop above. -/
def badPlaceholderIssues (line : String) (i : Int) : List Issue :=
  badGo i (pyFindAll matchBadPlaceholder line)

/-- One word of the spellcheck loop body: cache lookup first, the
custom-word set only on a cache miss, then the capability. -/
def spellCheckWord (cfg : CheckerConfig) (i : Int)
    (acc : List (String × List String) × List Misspelling) (word : String) :
    List (String × List String) × List Misspelling :=
  match lookupStr word acc.1 with
  | some suggs =>
    if suggs ≠ [] then (acc.1, acc.2 ++ [(word, i, suggs)]) else acc
  | none =>
    if word ∈ cfg.customWords then acc
    else if cfg.check word = false then
      let suggs := cfg.suggest word
      (acc.1 ++ [(word, suggs)], acc.2 ++ [(word, i, suggs)])
    else (acc.1 ++ [(word, [])], acc.2)

def spellFold (cfg : CheckerConfig) (i : Int)
    (acc : List (String × List String) × List Misspelling) :
    List String → List (String × List String) × List Misspelling
  | [] => acc
  | w :: ws => spellFold cfg i (spellCheckWord cfg i acc w) ws

/-- `words_to_check`: mask placeholders and fixed values, drop apostrophes,
tokenize, drop keywords, lowercase, deduplicate (set built in first-seen
order). -/
def spellWordsToCheck (line : String) : List String :=
  let cleaned := pySub matchFixed (pySub matchPlaceholder line)
  let cleaned := String.mk (cleaned.data.filter (· ≠ '\''))
  dedupFS [] (((pyWords cleaned).filter (· ∉ gherkinKeywords)).map pyLower)

/-- The spellcheck block for one line (lines 373–391 of the source). -/
def spellLine (cfg : CheckerConfig) (i : Int) (line : String)
    (cache : List (String × List String)) :
    List (String × List String) × List Misspelling :=
  spellFold cfg i (cache, []) (spellWordsToCheck line)

/-- Adjacent-pair comparison of the repeated-word block. -/
def repeatGo (i : Int) : List String → List Issue
  | [] => []
  | [_] => []
  | a :: b :: rest =>
    (if a = b ∧ a ∉ gherkinKeywords then
       [("Repeated Word", "Word '" ++ a ++ "' repeated", i)]
     else [])
    ++ repeatGo i (b :: rest)

/-- The repeated-word block body (lines 393–400): placeholders and fixed
values masked, apostrophes kept. -/
def repeatedWordIssues (line : String) (i : Int) : List Issue :=
  repeatGo i (pyWords (pySub matchFixed (pySub matchPlaceholder line)))

/-- The success-criteria boundary check run at the top of the `Scenario`
branch (lines 265–271), before the counters are reset. -/
def scBoundaryIssues (cfg : CheckerConfig) (st : ScanState) : List Issue :=
  if st.currentScenario.isSome ∧ cfg.featureType = "success_criteria" then
    (if st.givenCount ≠ 1 then
      [("Syntax Error", scGivenMsg st.givenCount, st.scenarioStartLine)] else [])
    ++ (if st.whenCount ≠ 1 then
      [("Syntax Error", scWhenMsg st.whenCount, st.scenarioStartLine)] else [])
  else []

/-- The `Scenario` branch (lines 264–289): success-criteria boundary check,
missing-Feature check, duplicate lookup, then the per-scenario reset. -/
def scenarioBranch (cfg : CheckerConfig) (i : Int) (line : String)
    (st : ScanState) : ScanState × List Issue :=
  let scIssues := scBoundaryIssues cfg st
  let featIssues :=
    if st.hasFeature = false then
      [("Syntax Error", "Scenario found before Feature", i)]
    else []
  let dictAndDup :=
    match lookupStr line st.scenarioDict with
    | some first =>
      (st.scenarioDict,
       [("Duplicate Scenario",
         "Scenario identical to one at line " ++ toString first, i)])
    | none => (st.scenarioDict ++ [(line, i)], [])
  ({ st with
      scenarios := st.scenarios + 1
      scenarioDict := dictAndDup.1
      currentScenario := some line
      currentSteps := []
      scenarioStartLine := i
      givenCount := 0
      whenCount := 0
      thenCount := 0
      andCount := 0
      inExamples := false
      examplesHeaders := none },
   scIssues ++ featIssues ++ dictAndDup.2)

/-- The `Examples` branch (lines 290–293); the line text itself is unused
by the branch body. -/
def examplesBranch (i : Int) (_line : String) (st : ScanState) :
    ScanState × List Issue :=
  ({ st with inExamples := true },
   if st.currentScenario.isNone then
     [("Syntax Error", "Examples found outside a Scenario", i)]
   else [])

/-- The table-row branch (lines 294–327): header capture with the
placeholder checks on the first row, iteration counting afterwards. -/
def tableBranch (i : Int) (line : String) (st : ScanState) :
    ScanState × List Issue :=
  if headersFalsy st.examplesHeaders then
    let headers := parseHeaders line
    let used := placeholdersUsed st.currentSteps
    let mIssues :=
      mismatchGo headers st.currentSteps st.scenarioStartLine i (dedupFS [] used)
    let oIssues :=
      if used ≠ [] then
        orderGo headers st.currentSteps st.scenarioStartLine i (-1) used
      else []
    ({ st with examplesHeaders := some headers }, mIssues ++ oIssues)
  else
    ({ st with totalIterations := st.totalIterations + 1 }, [])

/-- The step branch (lines 328–350): outside-scenario check, step counting,
step-text buffering, per-keyword counters and the immediate `But` policy. -/
def stepBranch (cfg : CheckerConfig) (i : Int) (line : String) (st : ScanState) :
    ScanState × List Issue :=
  let outIssues :=
    if st.currentScenario.isNone then
      [("Syntax Error", "Step found outside a Scenario", i)]
    else []
  let curSteps :=
    if st.currentScenario.isSome ∧ st.inExamples = false then
      st.currentSteps ++ [line]
    else st.currentSteps
  let stBase := { st with steps := st.steps + 1, currentSteps := curSteps }
  if pyStartsWith line "Given" then
    ({ stBase with givenCount := st.givenCount + 1 }, outIssues)
  else if pyStartsWith line "When" then
    ({ stBase with whenCount := st.whenCount + 1 }, outIssues)
  else if pyStartsWith line "Then" then
    ({ stBase with thenCount := st.thenCount + 1 }, outIssues)
  else if pyStartsWith line "And" then
    ({ stBase with andCount := st.andCount + 1 }, outIssues)
  else if pyStartsWith line "But" then
    let butIssues :=
      if cfg.featureType = "drive_cycle" then
        [("Syntax Error", "But not allowed in Drive Cycle format", i)]
      else if cfg.featureType = "success_criteria" then
        [("Syntax Error", "But not allowed in Success Criteria format", i)]
      else []
    (stBase, outIssues ++ butIssues)
  else (stBase, outIssues)

/-- The `if`/`elif` chain of the loop body (lines 262–350): classifies the
stripped line and updates the scenario state, returning the issues it adds. -/
def branchStep (cfg : CheckerConfig) (i : Int) (line : String) (st : ScanState) :
    ScanState × List Issue :=
  if pyStartsWith line "Feature" then
    ({ st with hasFeature := true }, [])
  else if pyStartsWith line "Scenario" then
    scenarioBranch cfg i line st
  else if pyStartsWith line "Examples" then
    examplesBranch i line st
  else if st.inExamples ∧ pyStartsWith line "|" then
    tableBranch i line st
  else if isStepLine line then
    stepBranch cfg i line st
  else (st, [])

/-- The scenario-boundary check (lines 352–357), evaluated after the branch,
so on the branch-updated state. -/
def boundaryIssues (cfg : CheckerConfig) (total i : Int) (line : String)
    (st1 : ScanState) : List Issue :=
  if (i = total ∨ (pyStartsWith line "Scenario" ∧ st1.currentScenario.isSome))
      ∧ st1.currentScenario.isSome then
    if cfg.featureType = "drive_cycle" then
      (if st1.whenCount > 0 then
        [("Syntax Error", dcWhenMsg, st1.scenarioStartLine)] else [])
      ++ (if st1.thenCount > 0 then
        [("Syntax Error", dcThenMsg, st1.scenarioStartLine)] else [])
    else []
  else []

/-- One iteration of the `for i, line in enumerate(lines, 1)` loop:
strip, skip blank/comment lines, run the branch, the boundary check, the
malformed-placeholder check, the spellcheck and the repeated-word check. -/
def processLine (cfg : CheckerConfig) (total i : Int) (rawLine : String)
    (st : ScanState) : ScanState × List Issue × List Misspelling :=
  let line := pyStrip rawLine
  if line = "" ∨ pyStartsWith line "#" then (st, [], [])
  else
    let st1 := (branchStep cfg i line st).1
    let branchIssues := (branchStep cfg i line st).2
    let bIssues := boundaryIssues cfg total i line st1
    let badIssues := badPlaceholderIssues line i
    let spellResult :=
      if cfg.spellcheckEnabled ∧ cfg.hasSpellchecker
          ∧ ¬ pyStartsWith line "#" then
        spellLine cfg i line st1.spellCache
      else (st1.spellCache, [])
    let rwIssues :=
      if ¬ (st1.inExamples ∧ pyStartsWith line "|") then
        repeatedWordIssues line i
      else []
    ({ st1 with spellCache := spellResult.1 },
     branchIssues ++ bIssues ++ badIssues ++ rwIssues,
     spellResult.2)

/-- The whole loop, accumulating issues and misspellings in scan order. -/
def scanLines (cfg : CheckerConfig) (total : Int) :
    List String → Int → ScanState → List Issue → List Misspelling →
      ScanState × List Issue × List Misspelling
  | [], _, st, is, ms => (st, is, ms)
  | l :: ls, i, st, is, ms =>
    let r := processLine cfg total i l st
    scanLines cfg total ls (i + 1) r.1 (is ++ r.2.1) (ms ++ r.2.2)

/-- The issues appended after the loop: the final success-criteria check for
the last scenario (lines 402–408, textually identical to the check at the
top of the `Scenario` branch) and the missing-Feature check
(lines 410–411). -/
def finalIssues (cfg : CheckerConfig) (st : ScanState) : List Issue :=
  scBoundaryIssues cfg st
  ++ (if st.hasFeature = false then [("Syntax Error", noFeatureMsg, 1)] else [])

/-- `GherkinChecker.process_file`: `lines` is the decoded file content
(file-open failures are a collaborator concern and the scan then simply does
not run); the given report is mutated — here, rebuilt — exactly as the
source does: feature type set first, issues/misspellings appended in scan
order, then stats and filename. -/
def processFile (cfg : CheckerConfig) (file : String) (lines : List String)
    (report : TestReport) : TestReport :=
  let report := setFeatureType report cfg.featureType
  let r := scanLines cfg (lines.length : Int) lines 1
    (initialScanState cfg.spellCache) [] []
  let report :=
    { report with
        issues := report.issues ++ r.2.1 ++ finalIssues cfg r.1
        misspelledWords := report.misspelledWords ++ r.2.2 }
  let report :=
    updateStats report lines.length r.1.scenarios r.1.steps r.1.totalIterations
  setFilename report file

/-! ### Derived definitions used by the lemmas and claims -/

/-- Recognizer for the end-of-scan missing-Feature issue. -/
def isNoFeatIssue (x : Issue) : Bool :=
  x.1 == "Syntax Error" && x.2.1 == noFeatureMsg

/-- Recognizer for duplicate-scenario issues. -/
def isDupIssue (x : Issue) : Bool :=
  x.1 == "Duplicate Scenario"

/-- Recognizer for repeated-word issues. -/
def isRWIssue (x : Issue) : Bool :=
  x.1 == "Repeated Word"

/-- The shape of issue kinds and syntax-error descriptions that the
`if`/`elif` chain can produce. -/
def BranchIssueShape (x : Issue) : Prop :=
  x.1 = "Placeholder Mismatch" ∨ x.1 = "Placeholder Order"
  ∨ x.1 = "Duplicate Scenario"
  ∨ (x.1 = "Syntax Error"
      ∧ (x.2.1 = "Scenario found before Feature"
        ∨ x.2.1 = "Examples found outside a Scenario"
        ∨ x.2.1 = "Step found outside a Scenario"
        ∨ x.2.1 = "But not allowed in Drive Cycle format"
        ∨ x.2.1 = "But not allowed in Success Criteria format"
        ∨ (∃ n, x.2.1 = scGivenMsg n) ∨ (∃ n, x.2.1 = scWhenMsg n)))

/-- The shape of every issue added by one loop iteration. -/
def LoopIssueShape (x : Issue) : Prop :=
  BranchIssueShape x
  ∨ (x.1 = "Syntax Error" ∧ (x.2.1 = dcWhenMsg ∨ x.2.1 = dcThenMsg))
  ∨ x.1 = "Invalid Placeholder Syntax" ∨ x.1 = "Repeated Word"

/-- The scenario-line occurrences of a document: `(line number, trimmed
text)` for every trimmed line starting with `Scenario`, in order. -/
def scenarioOcc (i : Int) : List String → List (Int × String)
  | [] => []
  | l :: ls =>
    (if pyStartsWith (pyStrip l) "Scenario" then [(i, pyStrip l)] else [])
      ++ scenarioOcc (i + 1) ls

/-- Reference recursion for claim C8: walk the scenario occurrences keeping
a first-seen index; later occurrences of a seen title each yield one
duplicate issue referencing the first occurrence. -/
def dupRef (seen : List (String × Int)) : List (Int × String) →
    List (String × Int) × List Issue
  | [] => (seen, [])
  | (i, t) :: rest =>
    match lookupStr t seen with
    | some first =>
      let r := dupRef seen rest
      (r.1,
       ("Duplicate Scenario",
        "Scenario identical to one at line " ++ toString first, i) :: r.2)
    | none => dupRef (seen ++ [(t, i)]) rest

/-- The ordering walk as the specification phrases it: `last_position`
starts from the given value; a token whose name has a header column index
(`0 ≤ pos`) is flagged exactly when that index is strictly lower than the
current `last_position`, and `last_position` then advances to the maximum;
tokens with no header column are skipped without affecting
`last_position`. -/
def orderSpecWalk (headers steps : List String) (start i : Int) :
    Int → List String → List Issue
  | _, [] => []
  | lastPos, ph :: rest =>
    let pos := lastIdx headers (phName ph)
    (if 0 ≤ pos ∧ pos < lastPos then
      let stepIndex := firstIdxContaining steps ph
      [("Placeholder Order",
        "Placeholder '" ++ ph
          ++ "' used out of sequence relative to Examples table column headings",
        if stepIndex ≠ -1 then stepIndex + start else i)]
     else [])
    ++ orderSpecWalk headers steps start i
        (if 0 ≤ pos then max lastPos pos else lastPos) rest

/-! ### Concrete checker configurations for the claim instances -/

/-- Standard feature type, spellcheck disabled. -/
def cfgStandardNoSpell : CheckerConfig :=
  mkGherkinChecker [] [] "standard" false false (fun _ => true) (fun _ => [])

/-- Drive-cycle feature type, spellcheck disabled. -/
def cfgDriveCycleNoSpell : CheckerConfig :=
  mkGherkinChecker [] [] "drive_cycle" false false (fun _ => true) (fun _ => [])

/-- An unrecognized feature-type tag, stored as-is by the constructor. -/
def cfgBogusNoSpell : CheckerConfig :=
  mkGherkinChecker [] [] "not_a_feature_type" false false (fun _ => true)
    (fun _ => [])

/-- `"foo"` is a custom word, but the shared cache already holds suggestions
for it from an earlier scan. -/
def cfgSharedCacheFoo : CheckerConfig :=
  mkGherkinChecker [("foo", ["food"])] ["foo"] "standard" true true
    (fun _ => true) (fun _ => [])

/-- `"foo"` is a custom word, the cache is empty, and the dictionary would
reject every word. -/
def cfgCustomFooNoCache : CheckerConfig :=
  mkGherkinChecker [] ["foo"] "standard" true true (fun _ => false)
    (fun _ => ["bar"])

/-- A dictionary that rejects exactly the word `"xyzzy"`. -/
def cfgSpellXyzzy : CheckerConfig :=
  mkGherkinChecker [] [] "standard" true true (fun w => w != "xyzzy")
    (fun _ => ["abc"])

/-- A dictionary that rejects exactly the word `"qwghlm"`. -/
def cfgSpellQwghlm : CheckerConfig :=
  mkGherkinChecker [] [] "standard" true true (fun w => w != "qwghlm")
    (fun _ => ["x"])

/-! ### Basic lemmas about the embedding -/

theorem head_of_pyStartsWith {l p : String} {c : Char} {cs : List Char}
    (hp : p.data = c :: cs) (h : pyStartsWith l p = true) :
    ∃ rest, l.data = c :: rest := by
  unfold pyStartsWith at h
  rw [hp] at h
  cases hl : l.data with
  | nil => rw [hl] at h; simp [List.isPrefixOf] at h
  | cons a as =>
    rw [hl] at h
    simp only [List.isPrefixOf, Bool.and_eq_true, beq_iff_eq] at h
    exact ⟨as, by rw [h.1]⟩

theorem pyStartsWith_false_of_head {l p : String} {c c' : Char} {rest cs : List Char}
    (hl : l.data = c :: rest) (hp : p.data = c' :: cs) (hne : c' ≠ c) :
    pyStartsWith l p = false := by
  unfold pyStartsWith
  rw [hl, hp]
  simp [List.isPrefixOf, hne]

theorem ne_empty_of_head {l : String} {c : Char} {rest : List Char}
    (hl : l.data = c :: rest) : ¬ (l = "") := by
  intro h
  rw [h] at hl
  simp at hl

/-- Every issue produced by the placeholder-mismatch loop has kind
`"Placeholder Mismatch"`. -/
theorem mismatchGo_mem {headers steps : List String} {start i : Int}
    {phs : List String} {x : Issue} (hx : x ∈ mismatchGo headers steps start i phs) :
    x.1 = "Placeholder Mismatch" := by
  induction phs with
  | nil => simp [mismatchGo] at hx
  | cons ph rest ih =>
    simp only [mismatchGo, List.mem_append] at hx
    rcases hx with hx | hx
    · split at hx
      · simp at hx
      · simp only [List.mem_singleton] at hx
        rw [hx]
    · exact ih hx

/-- Every issue produced by the placeholder-order loop has kind
`"Placeholder Order"`. -/
theorem orderGo_mem {headers steps : List String} {start i : Int}
    {lastPos : Int} {phs : List String} {x : Issue}
    (hx : x ∈ orderGo headers steps start i lastPos phs) :
    x.1 = "Placeholder Order" := by
  induction phs generalizing lastPos with
  | nil => simp [orderGo] at hx
  | cons ph rest ih =>
    simp only [orderGo] at hx
    split at hx
    · exact ih hx
    · simp only [List.mem_append] at hx
      rcases hx with hx | hx
      · split at hx
        · simp only [List.mem_singleton] at hx
          rw [hx]
        · simp at hx
      · exact ih hx

/-- Every issue produced by the malformed-placeholder loop has kind
`"Invalid Placeholder Syntax"`. -/
theorem badGo_mem {i : Int} {bps : List String} {x : Issue}
    (hx : x ∈ badGo i bps) : x.1 = "Invalid Placeholder Syntax" := by
  induction bps with
  | nil => simp [badGo] at hx
  | cons bp rest ih =>
    simp only [badGo, List.mem_append] at hx
    rcases hx with hx | hx
    · split at hx
      · simp only [List.mem_singleton] at hx; rw [hx]
      · split at hx
        · simp only [List.mem_singleton] at hx; rw [hx]
        · split at hx
          · simp only [List.mem_singleton] at hx; rw [hx]
          · simp at hx
    · exact ih hx

/-- Every issue produced by the repeated-word loop has kind
`"Repeated Word"`. -/
theorem repeatGo_mem {i : Int} {ws : List String} {x : Issue}
    (hx : x ∈ repeatGo i ws) : x.1 = "Repeated Word" := by
  induction ws with
  | nil => simp [repeatGo] at hx
  | cons a rest ih =>
    match rest with
    | [] => simp [repeatGo] at hx
    | b :: rest' =>
      simp only [repeatGo, List.mem_append] at hx
      rcases hx with hx | hx
      · split at hx
        · simp only [List.mem_singleton] at hx; rw [hx]
        · simp at hx
      · exact ih hx

/-- Every issue produced by the scenario-boundary check has kind
`"Syntax Error"` and one of the two drive-cycle descriptions. -/
theorem boundaryIssues_mem {cfg : CheckerConfig} {total i : Int} {line : String}
    {st1 : ScanState} {x : Issue} (hx : x ∈ boundaryIssues cfg total i line st1) :
    x.1 = "Syntax Error" ∧ (x.2.1 = dcWhenMsg ∨ x.2.1 = dcThenMsg) := by
  unfold boundaryIssues at hx
  split at hx
  · split at hx
    · simp only [List.mem_append] at hx
      rcases hx with hx | hx
      · split at hx
        · simp only [List.mem_singleton] at hx; rw [hx]; exact ⟨rfl, Or.inl rfl⟩
        · simp at hx
      · split at hx
        · simp only [List.mem_singleton] at hx; rw [hx]; exact ⟨rfl, Or.inr rfl⟩
        · simp at hx
    · simp at hx
  · simp at hx

theorem scGivenMsg_ne_noFeature (n : Nat) : scGivenMsg n ≠ noFeatureMsg := by
  intro h
  have hl := congrArg String.length h
  rw [scGivenMsg, String.length_append] at hl
  have h1 : ("Success Criteria must have exactly 1 Given, found " : String).length = 50 := by
    decide
  have h2 : noFeatureMsg.length = 32 := by decide
  omega

theorem scWhenMsg_ne_noFeature (n : Nat) : scWhenMsg n ≠ noFeatureMsg := by
  intro h
  have hl := congrArg String.length h
  rw [scWhenMsg, String.length_append] at hl
  have h1 : ("Success Criteria must have exactly 1 When, found " : String).length = 49 := by
    decide
  have h2 : noFeatureMsg.length = 32 := by decide
  omega

theorem scBoundaryIssues_mem {cfg : CheckerConfig} {st : ScanState} {x : Issue}
    (hx : x ∈ scBoundaryIssues cfg st) :
    x.1 = "Syntax Error"
      ∧ ((∃ n, x.2.1 = scGivenMsg n) ∨ (∃ n, x.2.1 = scWhenMsg n))
      ∧ x.2.2 = st.scenarioStartLine := by
  unfold scBoundaryIssues at hx
  split at hx
  · simp only [List.mem_append] at hx
    rcases hx with hx | hx
    · split at hx
      · simp only [List.mem_singleton] at hx
        exact ⟨by rw [hx], Or.inl ⟨_, by rw [hx]⟩, by rw [hx]⟩
      · simp at hx
    · split at hx
      · simp only [List.mem_singleton] at hx
        exact ⟨by rw [hx], Or.inr ⟨_, by rw [hx]⟩, by rw [hx]⟩
      · simp at hx
  · simp at hx

theorem scenarioBranch_mem {cfg : CheckerConfig} {i : Int} {line : String}
    {st : ScanState} {x : Issue} (hx : x ∈ (scenarioBranch cfg i line st).2) :
    BranchIssueShape x := by
  unfold scenarioBranch at hx
  simp only [List.mem_append] at hx
  rcases hx with (hx | hx) | hx
  · rcases scBoundaryIssues_mem hx with ⟨h1, h2 | h2, _⟩
    · exact Or.inr (Or.inr (Or.inr ⟨h1, Or.inr (Or.inr (Or.inr (Or.inr (Or.inr
        (Or.inl h2)))))⟩))
    · exact Or.inr (Or.inr (Or.inr ⟨h1, Or.inr (Or.inr (Or.inr (Or.inr (Or.inr
        (Or.inr h2)))))⟩))
  · split at hx
    · simp only [List.mem_singleton] at hx
      exact Or.inr (Or.inr (Or.inr ⟨by rw [hx], Or.inl (by rw [hx])⟩))
    · simp at hx
  · split at hx
    · simp only [List.mem_singleton] at hx
      exact Or.inr (Or.inr (Or.inl (by rw [hx])))
    · simp at hx

theorem examplesBranch_mem {i : Int} {line : String} {st : ScanState} {x : Issue}
    (hx : x ∈ (examplesBranch i line st).2) :
    x.1 = "Syntax Error" ∧ x.2.1 = "Examples found outside a Scenario" := by
  unfold examplesBranch at hx
  simp only at hx
  split at hx
  · simp only [List.mem_singleton] at hx
    exact ⟨by rw [hx], by rw [hx]⟩
  · simp at hx

theorem tableBranch_mem {i : Int} {line : String} {st : ScanState} {x : Issue}
    (hx : x ∈ (tableBranch i line st).2) :
    x.1 = "Placeholder Mismatch" ∨ x.1 = "Placeholder Order" := by
  unfold tableBranch at hx
  split at hx
  · simp only [List.mem_append] at hx
    rcases hx with hx | hx
    · exact Or.inl (mismatchGo_mem hx)
    · split at hx
      · exact Or.inr (orderGo_mem hx)
      · simp at hx
  · simp at hx

set_option maxHeartbeats 1000000 in
theorem stepBranch_mem {cfg : CheckerConfig} {i : Int} {line : String}
    {st : ScanState} {x : Issue} (hx : x ∈ (stepBranch cfg i line st).2) :
    x.1 = "Syntax Error"
      ∧ (x.2.1 = "Step found outside a Scenario"
        ∨ x.2.1 = "But not allowed in Drive Cycle format"
        ∨ x.2.1 = "But not allowed in Success Criteria format") := by
  unfold stepBranch at hx
  repeat' split at hx
  all_goals
    simp only [List.mem_append, List.mem_singleton, List.not_mem_nil, or_false,
      false_or] at hx
  all_goals
    first
      | exact hx.elim
      | (rcases hx with rfl | rfl <;> simp)

/-- Inventory of the issues the `if`/`elif` chain can add: their kinds, and
for syntax errors their possible descriptions. -/
theorem branchStep_mem {cfg : CheckerConfig} {i : Int} {line : String}
    {st : ScanState} {x : Issue} (hx : x ∈ (branchStep cfg i line st).2) :
    BranchIssueShape x := by
  unfold branchStep at hx
  split at hx
  · simp at hx
  · split at hx
    · exact scenarioBranch_mem hx
    · split at hx
      · rcases examplesBranch_mem hx with ⟨h1, h2⟩
        exact Or.inr (Or.inr (Or.inr ⟨h1, Or.inr (Or.inl h2)⟩))
      · split at hx
        · rcases tableBranch_mem hx with h | h
          · exact Or.inl h
          · exact Or.inr (Or.inl h)
        · split at hx
          · rcases stepBranch_mem hx with ⟨h1, h2 | h2 | h2⟩
            · exact Or.inr (Or.inr (Or.inr ⟨h1, Or.inr (Or.inr (Or.inl h2))⟩))
            · exact Or.inr (Or.inr (Or.inr ⟨h1, Or.inr (Or.inr (Or.inr (Or.inl h2)))⟩))
            · exact Or.inr (Or.inr (Or.inr ⟨h1,
                Or.inr (Or.inr (Or.inr (Or.inr (Or.inl h2))))⟩))
          · simp at hx

theorem badPlaceholderIssues_mem {line : String} {i : Int} {x : Issue}
    (hx : x ∈ badPlaceholderIssues line i) : x.1 = "Invalid Placeholder Syntax" :=
  badGo_mem hx

theorem processLine_mem {cfg : CheckerConfig} {total i : Int} {l : String}
    {st : ScanState} {x : Issue} (hx : x ∈ (processLine cfg total i l st).2.1) :
    LoopIssueShape x := by
  simp only [processLine] at hx
  split at hx
  · simp at hx
  · simp only [List.mem_append] at hx
    rcases hx with ((hx | hx) | hx) | hx
    · exact Or.inl (branchStep_mem hx)
    · exact Or.inr (Or.inl ⟨(boundaryIssues_mem hx).1, (boundaryIssues_mem hx).2⟩)
    · exact Or.inr (Or.inr (Or.inl (badPlaceholderIssues_mem hx)))
    · split at hx
      · exact Or.inr (Or.inr (Or.inr (repeatGo_mem hx)))
      · simp at hx

theorem filter_eq_nil_of_kind {α : Type} {l : List α} {p : α → Bool}
    (h : ∀ x ∈ l, p x = false) : l.filter p = [] := by
  apply List.filter_eq_nil_iff.mpr
  intro a ha
  simp [h a ha]

/-! State preservation of the branches -/

theorem scenarioBranch_pres (cfg : CheckerConfig) (i : Int) (line : String)
    (st : ScanState) :
    (scenarioBranch cfg i line st).1.hasFeature = st.hasFeature
    ∧ (scenarioBranch cfg i line st).1.spellCache = st.spellCache := by
  unfold scenarioBranch
  exact ⟨rfl, rfl⟩

theorem examplesBranch_pres (i : Int) (line : String) (st : ScanState) :
    (examplesBranch i line st).1.hasFeature = st.hasFeature
    ∧ (examplesBranch i line st).1.spellCache = st.spellCache
    ∧ (examplesBranch i line st).1.scenarioDict = st.scenarioDict := by
  unfold examplesBranch
  exact ⟨rfl, rfl, rfl⟩

theorem tableBranch_pres (i : Int) (line : String) (st : ScanState) :
    (tableBranch i line st).1.hasFeature = st.hasFeature
    ∧ (tableBranch i line st).1.spellCache = st.spellCache
    ∧ (tableBranch i line st).1.scenarioDict = st.scenarioDict
    ∧ (tableBranch i line st).1.inExamples = st.inExamples := by
  unfold tableBranch
  split
  · exact ⟨rfl, rfl, rfl, rfl⟩
  · exact ⟨rfl, rfl, rfl, rfl⟩

theorem stepBranch_pres (cfg : CheckerConfig) (i : Int) (line : String)
    (st : ScanState) :
    (stepBranch cfg i line st).1.hasFeature = st.hasFeature
    ∧ (stepBranch cfg i line st).1.spellCache = st.spellCache
    ∧ (stepBranch cfg i line st).1.scenarioDict = st.scenarioDict := by
  unfold stepBranch
  repeat' split
  all_goals exact ⟨rfl, rfl, rfl⟩

theorem branchStep_spellCache (cfg : CheckerConfig) (i : Int) (line : String)
    (st : ScanState) : (branchStep cfg i line st).1.spellCache = st.spellCache := by
  unfold branchStep
  split
  · rfl
  · split
    · exact (scenarioBranch_pres cfg i line st).2
    · split
      · exact (examplesBranch_pres i line st).2.1
      · split
        · exact (tableBranch_pres i line st).2.1
        · split
          · exact (stepBranch_pres cfg i line st).2.1
          · rfl

theorem branchStep_hasFeature (cfg : CheckerConfig) (i : Int) (line : String)
    (st : ScanState) :
    (branchStep cfg i line st).1.hasFeature
      = (st.hasFeature || pyStartsWith line "Feature") := by
  unfold branchStep
  split
  · next h => simp [h]
  · next h =>
    rw [Bool.eq_false_iff.mpr h, Bool.or_false]
    split
    · exact (scenarioBranch_pres cfg i line st).1
    · split
      · exact (examplesBranch_pres i line st).1
      · split
        · exact (tableBranch_pres i line st).1
        · split
          · exact (stepBranch_pres cfg i line st).1
          · rfl

theorem pyStartsWith_of_empty (p : String) (hp : p.data ≠ []) :
    pyStartsWith "" p = false := by
  unfold pyStartsWith
  cases h : p.data with
  | nil => exact absurd h hp
  | cons c cs => simp [List.isPrefixOf]

theorem processLine_hasFeature (cfg : CheckerConfig) (total i : Int) (l : String)
    (st : ScanState) :
    (processLine cfg total i l st).1.hasFeature
      = (st.hasFeature || pyStartsWith (pyStrip l) "Feature") := by
  simp only [processLine]
  split
  · next h =>
    have hf : pyStartsWith (pyStrip l) "Feature" = false := by
      rcases h with h | h
      · rw [h]; exact pyStartsWith_of_empty _ (by decide)
      · obtain ⟨rest, hr⟩ := head_of_pyStartsWith (show "#".data = '#' :: [] from rfl) h
        exact pyStartsWith_false_of_head hr rfl (by decide)
    simp [hf]
  · exact branchStep_hasFeature cfg i (pyStrip l) st

/-! ### The missing-Feature diagnostic (claim C6) -/

theorem LoopIssueShape_not_noFeat {x : Issue} (h : LoopIssueShape x) :
    isNoFeatIssue x = false := by
  rcases h with h | ⟨h1, h2 | h2⟩ | h | h
  · rcases h with h | h | h | ⟨h1, h2⟩
    · simp [isNoFeatIssue, h]
    · simp [isNoFeatIssue, h]
    · simp [isNoFeatIssue, h]
    · rcases h2 with h2 | h2 | h2 | h2 | h2 | ⟨n, h2⟩ | ⟨n, h2⟩
      · simp [isNoFeatIssue, h1, h2, noFeatureMsg]
      · simp [isNoFeatIssue, h1, h2, noFeatureMsg]
      · simp [isNoFeatIssue, h1, h2, noFeatureMsg]
      · simp [isNoFeatIssue, h1, h2, noFeatureMsg]
      · simp [isNoFeatIssue, h1, h2, noFeatureMsg]
      · simp [isNoFeatIssue, h1, h2, scGivenMsg_ne_noFeature n]
      · simp [isNoFeatIssue, h1, h2, scWhenMsg_ne_noFeature n]
  · simp [isNoFeatIssue, h1, h2, dcWhenMsg, noFeatureMsg]
  · simp [isNoFeatIssue, h1, h2, dcThenMsg, noFeatureMsg]
  · simp [isNoFeatIssue, h]
  · simp [isNoFeatIssue, h]

theorem processLine_filter_noFeat (cfg : CheckerConfig) (total i : Int)
    (l : String) (st : ScanState) :
    (processLine cfg total i l st).2.1.filter isNoFeatIssue = [] :=
  filter_eq_nil_of_kind fun _ hx => LoopIssueShape_not_noFeat (processLine_mem hx)

theorem scanLines_hasFeature (cfg : CheckerConfig) (total : Int) :
    ∀ (ls : List String) (i : Int) (st : ScanState) (is : List Issue)
      (ms : List Misspelling),
    (scanLines cfg total ls i st is ms).1.hasFeature
      = (st.hasFeature || ls.any (fun l => pyStartsWith (pyStrip l) "Feature")) := by
  intro ls
  induction ls with
  | nil => intro i st is ms; simp [scanLines]
  | cons l ls ih =>
    intro i st is ms
    simp only [scanLines]
    rw [ih, processLine_hasFeature, List.any_cons, Bool.or_assoc]

theorem scanLines_filter_noFeat (cfg : CheckerConfig) (total : Int) :
    ∀ (ls : List String) (i : Int) (st : ScanState) (is : List Issue)
      (ms : List Misspelling),
    (scanLines cfg total ls i st is ms).2.1.filter isNoFeatIssue
      = is.filter isNoFeatIssue := by
  intro ls
  induction ls with
  | nil => intro i st is ms; simp [scanLines]
  | cons l ls ih =>
    intro i st is ms
    simp only [scanLines]
    rw [ih, List.filter_append, processLine_filter_noFeat, List.append_nil]

theorem scBoundaryIssues_filter_noFeat (cfg : CheckerConfig) (st : ScanState) :
    (scBoundaryIssues cfg st).filter isNoFeatIssue = [] := by
  apply filter_eq_nil_of_kind
  intro x hx
  rcases scBoundaryIssues_mem hx with ⟨h1, ⟨n, h2⟩ | ⟨n, h2⟩, _⟩
  · simp [isNoFeatIssue, h1, h2, scGivenMsg_ne_noFeature n]
  · simp [isNoFeatIssue, h1, h2, scWhenMsg_ne_noFeature n]

theorem finalIssues_filter_noFeat (cfg : CheckerConfig) (st : ScanState) :
    (finalIssues cfg st).filter isNoFeatIssue
      = (if st.hasFeature = false then [("Syntax Error", noFeatureMsg, 1)] else []) := by
  unfold finalIssues
  rw [List.filter_append, scBoundaryIssues_filter_noFeat, List.nil_append]
  split
  · simp [isNoFeatIssue]
  · simp

/-- Claim C6: a document without a `Feature`-prefixed trimmed line yields
exactly one `"No Feature keyword found in file"` syntax error, reported at
line 1; a document with such a line never yields that issue. -/
theorem C6_theorem (cfg : CheckerConfig) (file ts : String)
    (e : Option EnabledChecks) (lines : List String) :
    (processFile cfg file lines (mkTestReport e ts)).issues.filter isNoFeatIssue
      = (if lines.any (fun l => pyStartsWith (pyStrip l) "Feature") then []
         else [("Syntax Error", noFeatureMsg, 1)]) := by
  unfold processFile
  simp only [setFeatureType, updateStats, setFilename, mkTestReport]
  rw [List.filter_append, List.filter_append]
  rw [scanLines_filter_noFeat, finalIssues_filter_noFeat]
  rw [scanLines_hasFeature]
  simp only [initialScanState, List.filter_nil, Bool.false_or, List.nil_append]
  cases h : lines.any (fun l => pyStartsWith (pyStrip l) "Feature") <;> simp

/-! ### Duplicate-scenario tracking (claim C8) -/

theorem scenario_line_facts {line : String}
    (h : pyStartsWith line "Scenario" = true) :
    ¬(line = "" ∨ pyStartsWith line "#" = true)
      ∧ pyStartsWith line "Feature" = false := by
  obtain ⟨rest, hr⟩ :=
    head_of_pyStartsWith (show "Scenario".data = 'S' :: "cenario".data from rfl) h
  refine ⟨?_, pyStartsWith_false_of_head hr rfl (by decide)⟩
  rintro (he | hh)
  · exact ne_empty_of_head hr he
  · rw [pyStartsWith_false_of_head hr rfl (by decide)] at hh
    exact Bool.false_ne_true hh

theorem scBoundaryIssues_filter_dup (cfg : CheckerConfig) (st : ScanState) :
    (scBoundaryIssues cfg st).filter isDupIssue = [] := by
  apply filter_eq_nil_of_kind
  intro x hx
  simp [isDupIssue, (scBoundaryIssues_mem hx).1]

/-- On a `Scenario` line whose text is new, the duplicate index gains the
entry and no duplicate issue is emitted. -/
theorem scenarioBranch_dup_none (cfg : CheckerConfig) (i : Int) (line : String)
    (st : ScanState) (hl : lookupStr line st.scenarioDict = none) :
    (scenarioBranch cfg i line st).1.scenarioDict = st.scenarioDict ++ [(line, i)]
    ∧ (scenarioBranch cfg i line st).2.filter isDupIssue = [] := by
  constructor
  · unfold scenarioBranch
    simp [hl]
  · unfold scenarioBranch
    simp only [hl]
    rw [List.filter_append, List.filter_append, scBoundaryIssues_filter_dup]
    split
    · simp [isDupIssue]
    · simp [isDupIssue]

/-- On a `Scenario` line whose text was already seen at `first`, the index
is unchanged and exactly one duplicate issue referencing `first` is
emitted. -/
theorem scenarioBranch_dup_some (cfg : CheckerConfig) (i : Int) (line : String)
    (st : ScanState) (first : Int)
    (hl : lookupStr line st.scenarioDict = some first) :
    (scenarioBranch cfg i line st).1.scenarioDict = st.scenarioDict
    ∧ (scenarioBranch cfg i line st).2.filter isDupIssue
      = [("Duplicate Scenario",
          "Scenario identical to one at line " ++ toString first, i)] := by
  constructor
  · unfold scenarioBranch
    simp [hl]
  · unfold scenarioBranch
    simp only [hl]
    rw [List.filter_append, List.filter_append, scBoundaryIssues_filter_dup]
    split
    · simp [isDupIssue]
    · simp [isDupIssue]

theorem branchStep_dup_nonScenario (cfg : CheckerConfig) (i : Int) {line : String}
    (st : ScanState) (h : pyStartsWith line "Scenario" = false) :
    (branchStep cfg i line st).1.scenarioDict = st.scenarioDict
      ∧ (branchStep cfg i line st).2.filter isDupIssue = [] := by
  unfold branchStep
  split
  · exact ⟨rfl, rfl⟩
  · rw [if_neg (by simp [h])]
    split
    · refine ⟨(examplesBranch_pres i line st).2.2, ?_⟩
      apply filter_eq_nil_of_kind
      intro x hx
      simp [isDupIssue, (examplesBranch_mem hx).1]
    · split
      · refine ⟨(tableBranch_pres i line st).2.2.1, ?_⟩
        apply filter_eq_nil_of_kind
        intro x hx
        rcases tableBranch_mem hx with hk | hk <;> simp [isDupIssue, hk]
      · split
        · refine ⟨(stepBranch_pres cfg i line st).2.2, ?_⟩
          apply filter_eq_nil_of_kind
          intro x hx
          simp [isDupIssue, (stepBranch_mem hx).1]
        · exact ⟨rfl, rfl⟩

theorem boundary_bad_rw_filter_dup (cfg : CheckerConfig) (total i : Int)
    (line : String) (st1 : ScanState) :
    (boundaryIssues cfg total i line st1).filter isDupIssue = []
      ∧ (badPlaceholderIssues line i).filter isDupIssue = []
      ∧ (repeatedWordIssues line i).filter isDupIssue = [] := by
  refine ⟨?_, ?_, ?_⟩
  · apply filter_eq_nil_of_kind
    intro x hx
    simp [isDupIssue, (boundaryIssues_mem hx).1]
  · apply filter_eq_nil_of_kind
    intro x hx
    simp [isDupIssue, badPlaceholderIssues_mem hx]
  · apply filter_eq_nil_of_kind
    intro x hx
    simp [isDupIssue, repeatGo_mem hx]

theorem filter_dup_ite_rw (c : Prop) [Decidable c] (l : String) (i : Int) :
    (if c then repeatedWordIssues l i else []).filter isDupIssue = [] := by
  split
  · apply filter_eq_nil_of_kind
    intro x hx
    simp [isDupIssue, repeatGo_mem hx]
  · rfl

theorem processLine_dup_nonScenario (cfg : CheckerConfig) (total i : Int)
    {l : String} (st : ScanState)
    (h : pyStartsWith (pyStrip l) "Scenario" = false) :
    (processLine cfg total i l st).1.scenarioDict = st.scenarioDict
      ∧ (processLine cfg total i l st).2.1.filter isDupIssue = [] := by
  simp only [processLine]
  split
  · exact ⟨rfl, rfl⟩
  · obtain ⟨hd, hf⟩ := branchStep_dup_nonScenario cfg i st h
    obtain ⟨h1, h2, _⟩ :=
      boundary_bad_rw_filter_dup cfg total i (pyStrip l)
        (branchStep cfg i (pyStrip l) st).1
    refine ⟨hd, ?_⟩
    rw [List.filter_append, List.filter_append, List.filter_append, hf, h1, h2,
      filter_dup_ite_rw]
    rfl

theorem branchStep_eq_scenarioBranch (cfg : CheckerConfig) (i : Int)
    {line : String} (st : ScanState) (h : pyStartsWith line "Scenario" = true) :
    branchStep cfg i line st = scenarioBranch cfg i line st := by
  unfold branchStep
  rw [if_neg (by simp [(scenario_line_facts h).2]), if_pos h]

theorem processLine_dup_scenario_none (cfg : CheckerConfig) (total i : Int)
    {l : String} (st : ScanState)
    (h : pyStartsWith (pyStrip l) "Scenario" = true)
    (hl : lookupStr (pyStrip l) st.scenarioDict = none) :
    (processLine cfg total i l st).1.scenarioDict
        = st.scenarioDict ++ [(pyStrip l, i)]
      ∧ (processLine cfg total i l st).2.1.filter isDupIssue = [] := by
  obtain ⟨hnb, _⟩ := scenario_line_facts h
  simp only [processLine]
  rw [if_neg hnb]
  obtain ⟨h1, h2, _⟩ :=
    boundary_bad_rw_filter_dup cfg total i (pyStrip l)
      (branchStep cfg i (pyStrip l) st).1
  obtain ⟨hd, hf⟩ := scenarioBranch_dup_none cfg i (pyStrip l) st hl
  constructor
  · rw [branchStep_eq_scenarioBranch cfg i st h]; exact hd
  · rw [List.filter_append, List.filter_append, List.filter_append, h1, h2,
      filter_dup_ite_rw, branchStep_eq_scenarioBranch cfg i st h, hf]
    rfl

theorem processLine_dup_scenario_some (cfg : CheckerConfig) (total i : Int)
    {l : String} (st : ScanState) (first : Int)
    (h : pyStartsWith (pyStrip l) "Scenario" = true)
    (hl : lookupStr (pyStrip l) st.scenarioDict = some first) :
    (processLine cfg total i l st).1.scenarioDict = st.scenarioDict
      ∧ (processLine cfg total i l st).2.1.filter isDupIssue
        = [("Duplicate Scenario",
            "Scenario identical to one at line " ++ toString first, i)] := by
  obtain ⟨hnb, _⟩ := scenario_line_facts h
  simp only [processLine]
  rw [if_neg hnb]
  obtain ⟨h1, h2, _⟩ :=
    boundary_bad_rw_filter_dup cfg total i (pyStrip l)
      (branchStep cfg i (pyStrip l) st).1
  obtain ⟨hd, hf⟩ := scenarioBranch_dup_some cfg i (pyStrip l) st first hl
  constructor
  · rw [branchStep_eq_scenarioBranch cfg i st h]; exact hd
  · rw [List.filter_append, List.filter_append, List.filter_append, h1, h2,
      filter_dup_ite_rw, branchStep_eq_scenarioBranch cfg i st h, hf]
    simp

theorem scanLines_dup (cfg : CheckerConfig) (total : Int) :
    ∀ (ls : List String) (i : Int) (st : ScanState) (is : List Issue)
      (ms : List Misspelling),
    (scanLines cfg total ls i st is ms).1.scenarioDict
        = (dupRef st.scenarioDict (scenarioOcc i ls)).1
      ∧ (scanLines cfg total ls i st is ms).2.1.filter isDupIssue
        = is.filter isDupIssue ++ (dupRef st.scenarioDict (scenarioOcc i ls)).2 := by
  intro ls
  induction ls with
  | nil => intro i st is ms; simp [scanLines, scenarioOcc, dupRef]
  | cons l ls ih =>
    intro i st is ms
    simp only [scanLines, scenarioOcc]
    obtain ⟨ihd, ihf⟩ := ih (i + 1) (processLine cfg total i l st).1
      (is ++ (processLine cfg total i l st).2.1)
      (ms ++ (processLine cfg total i l st).2.2)
    cases hs : pyStartsWith (pyStrip l) "Scenario" with
    | false =>
      obtain ⟨hd, hf⟩ := processLine_dup_nonScenario cfg total i st hs
      rw [if_neg (by simp), List.nil_append, ihd, ihf, hd, List.filter_append, hf,
        List.append_nil]
      exact ⟨rfl, rfl⟩
    | true =>
      rw [if_pos rfl, List.singleton_append]
      rcases hl : lookupStr (pyStrip l) st.scenarioDict with _ | first
      · obtain ⟨hd, hf⟩ := processLine_dup_scenario_none cfg total i st hs hl
        simp only [dupRef, hl]
        rw [ihd, ihf, hd, List.filter_append, hf, List.append_nil]
        exact ⟨rfl, rfl⟩
      · obtain ⟨hd, hf⟩ := processLine_dup_scenario_some cfg total i st first hs hl
        simp only [dupRef, hl]
        rw [ihd, ihf, hd, List.filter_append, hf]
        simp

/-- Claim C8: the duplicate-scenario issues of a scan are exactly those
given by the first-seen walk over the document's scenario lines, and the
duplicate index ends up as that walk's first-seen table (entries are never
removed or overwritten). -/
theorem C8_theorem (cfg : CheckerConfig) (file ts : String)
    (e : Option EnabledChecks) (lines : List String) :
    (processFile cfg file lines (mkTestReport e ts)).issues.filter isDupIssue
        = (dupRef [] (scenarioOcc 1 lines)).2
      ∧ (scanLines cfg (lines.length : Int) lines 1
          (initialScanState cfg.spellCache) [] []).1.scenarioDict
        = (dupRef [] (scenarioOcc 1 lines)).1 := by
  constructor
  · unfold processFile
    simp only [setFeatureType, updateStats, setFilename, mkTestReport]
    rw [List.filter_append, List.filter_append]
    have hfin : (finalIssues cfg (scanLines cfg (lines.length : Int) lines 1
        (initialScanState cfg.spellCache) [] []).1).filter isDupIssue = [] := by
      unfold finalIssues
      rw [List.filter_append, scBoundaryIssues_filter_dup, List.nil_append]
      split
      · simp [isDupIssue]
      · rfl
    rw [hfin, (scanLines_dup cfg (lines.length : Int) lines 1
      (initialScanState cfg.spellCache) [] []).2]
    simp [initialScanState]
  · exact (scanLines_dup cfg (lines.length : Int) lines 1
      (initialScanState cfg.spellCache) [] []).1

/-! ### Custom words versus the spell cache (claim C3) -/

theorem lookupStr_append_none {α : Type} {w : String} {c : List (String × α)}
    {w' : String} {v : α} (hc : lookupStr w c = none) (hne : w' ≠ w) :
    lookupStr w (c ++ [(w', v)]) = none := by
  induction c with
  | nil => simp [lookupStr, hne]
  | cons e rest ih =>
    obtain ⟨k, u⟩ := e
    rw [List.cons_append]
    unfold lookupStr at hc ⊢
    split at hc
    · exact absurd hc (by simp)
    · next hk =>
      rw [if_neg hk]
      exact ih hc

/-- One spell-checked word never reports a custom word that is absent from
the cache, and never inserts it into the cache. -/
theorem spellCheckWord_inv (cfg : CheckerConfig) (i : Int)
    {acc : List (String × List String) × List Misspelling} {w : String}
    (hw : w ∈ cfg.customWords) (hc : lookupStr w acc.1 = none)
    (hm : ∀ m ∈ acc.2, m.1 ≠ w) (w' : String) :
    lookupStr w (spellCheckWord cfg i acc w').1 = none
    ∧ ∀ m ∈ (spellCheckWord cfg i acc w').2, m.1 ≠ w := by
  by_cases hww : w' = w
  · subst hww
    unfold spellCheckWord
    simp only [hc]
    rw [if_pos hw]
    exact ⟨hc, hm⟩
  · unfold spellCheckWord
    rcases h : lookupStr w' acc.1 with _ | suggs
    · simp only [h]
      split
      · exact ⟨hc, hm⟩
      · split
        · refine ⟨lookupStr_append_none hc hww, ?_⟩
          intro m hmem
          rcases List.mem_append.mp hmem with hmem | hmem
          · exact hm m hmem
          · simp only [List.mem_singleton] at hmem
            rw [hmem]
            exact hww
        · exact ⟨lookupStr_append_none hc hww, hm⟩
    · simp only [h]
      split
      · refine ⟨hc, ?_⟩
        intro m hmem
        rcases List.mem_append.mp hmem with hmem | hmem
        · exact hm m hmem
        · simp only [List.mem_singleton] at hmem
          rw [hmem]
          exact hww
      · exact ⟨hc, hm⟩

theorem spellFold_inv (cfg : CheckerConfig) (i : Int) {w : String}
    (hw : w ∈ cfg.customWords) :
    ∀ (ws : List String) (acc : List (String × List String) × List Misspelling),
      lookupStr w acc.1 = none → (∀ m ∈ acc.2, m.1 ≠ w) →
      lookupStr w (spellFold cfg i acc ws).1 = none
      ∧ ∀ m ∈ (spellFold cfg i acc ws).2, m.1 ≠ w := by
  intro ws
  induction ws with
  | nil => intro acc hc hm; exact ⟨hc, hm⟩
  | cons w' ws ih =>
    intro acc hc hm
    obtain ⟨hc', hm'⟩ := spellCheckWord_inv cfg i hw hc hm w'
    exact ih (spellCheckWord cfg i acc w') hc' hm'

theorem spellLine_inv (cfg : CheckerConfig) (i : Int) (line : String)
    {cache : List (String × List String)} {w : String}
    (hw : w ∈ cfg.customWords) (hc : lookupStr w cache = none) :
    lookupStr w (spellLine cfg i line cache).1 = none
    ∧ ∀ m ∈ (spellLine cfg i line cache).2, m.1 ≠ w :=
  spellFold_inv cfg i hw (spellWordsToCheck line) (cache, []) hc (by simp)

theorem processLine_spell_inv (cfg : CheckerConfig) (total i : Int) (l : String)
    {st : ScanState} {w : String} (hw : w ∈ cfg.customWords)
    (hc : lookupStr w st.spellCache = none) :
    lookupStr w (processLine cfg total i l st).1.spellCache = none
    ∧ ∀ m ∈ (processLine cfg total i l st).2.2, m.1 ≠ w := by
  simp only [processLine]
  split
  · exact ⟨hc, by simp⟩
  · have hb : (branchStep cfg i (pyStrip l) st).1.spellCache = st.spellCache :=
      branchStep_spellCache cfg i (pyStrip l) st
    split
    · rw [hb]
      exact spellLine_inv cfg i (pyStrip l) hw hc
    · rw [hb]
      exact ⟨hc, by simp⟩

theorem scanLines_spell_inv (cfg : CheckerConfig) (total : Int) {w : String}
    (hw : w ∈ cfg.customWords) :
    ∀ (ls : List String) (i : Int) (st : ScanState) (is : List Issue)
      (ms : List Misspelling),
      lookupStr w st.spellCache = none → (∀ m ∈ ms, m.1 ≠ w) →
      ∀ m ∈ (scanLines cfg total ls i st is ms).2.2, m.1 ≠ w := by
  intro ls
  induction ls with
  | nil => intro i st is ms _ hm; exact hm
  | cons l ls ih =>
    intro i st is ms hc hm
    obtain ⟨hc', hm'⟩ := processLine_spell_inv cfg total i l hw hc
    refine ih (i + 1) (processLine cfg total i l st).1 _ _ hc' ?_
    intro m hmem
    rcases List.mem_append.mp hmem with hmem | hmem
    · exact hm m hmem
    · exact hm' m hmem

/-- Claim C3 (amended): a custom word that is absent from the shared cache
when the scan starts is never reported as misspelled — the scan consults
the cache first, but never inserts custom words into it. -/
theorem C3_theorem (cfg : CheckerConfig) (file ts : String)
    (e : Option EnabledChecks) (lines : List String) (w : String)
    (hw : w ∈ cfg.customWords) (hc : lookupStr w cfg.spellCache = none) :
    (processFile cfg file lines (mkTestReport e ts)).misspelledWords.filter
      (fun m => m.1 == w) = [] := by
  unfold processFile
  simp only [setFeatureType, updateStats, setFilename, mkTestReport]
  rw [List.nil_append]
  apply filter_eq_nil_of_kind
  intro m hm
  have := scanLines_spell_inv cfg (lines.length : Int) hw lines 1
    (initialScanState cfg.spellCache) [] [] hc (by simp) m hm
  simp [this]

/-! ### Table rows and the repeated-word check (claim C4) -/

theorem table_line_facts {line : String} (h : pyStartsWith line "|" = true) :
    ¬(line = "" ∨ pyStartsWith line "#" = true)
    ∧ pyStartsWith line "Feature" = false
    ∧ pyStartsWith line "Scenario" = false
    ∧ pyStartsWith line "Examples" = false := by
  obtain ⟨rest, hr⟩ := head_of_pyStartsWith (show "|".data = '|' :: [] from rfl) h
  refine ⟨?_, pyStartsWith_false_of_head hr rfl (by decide),
    pyStartsWith_false_of_head hr rfl (by decide),
    pyStartsWith_false_of_head hr rfl (by decide)⟩
  rintro (he | hh)
  · exact ne_empty_of_head hr he
  · rw [pyStartsWith_false_of_head hr rfl (by decide)] at hh
    exact Bool.false_ne_true hh

theorem branchStep_table_inExamples (cfg : CheckerConfig) (i : Int)
    {line : String} (st : ScanState) (hEx : st.inExamples = true)
    (hBar : pyStartsWith line "|" = true) :
    (branchStep cfg i line st).1.inExamples = true := by
  obtain ⟨_, hf, hs, he⟩ := table_line_facts hBar
  unfold branchStep
  rw [if_neg (by simp [hf]), if_neg (by simp [hs]), if_neg (by simp [he]),
    if_pos ⟨hEx, hBar⟩]
  rw [(tableBranch_pres i line st).2.2.2]
  exact hEx

theorem BranchIssueShape_not_RW {x : Issue} (h : BranchIssueShape x) :
    isRWIssue x = false := by
  rcases h with h | h | h | ⟨h1, _⟩
  · simp [isRWIssue, h]
  · simp [isRWIssue, h]
  · simp [isRWIssue, h]
  · simp [isRWIssue, h1]

/-- On a `|`-delimited line while inside an Examples block, no Repeated Word
issue is produced. -/
theorem processLine_table_noRW (cfg : CheckerConfig) (total i : Int)
    {l : String} (st : ScanState) (hEx : st.inExamples = true)
    (hBar : pyStartsWith (pyStrip l) "|" = true) :
    (processLine cfg total i l st).2.1.filter isRWIssue = [] := by
  obtain ⟨hnb, _, _, _⟩ := table_line_facts hBar
  have hst1 : (branchStep cfg i (pyStrip l) st).1.inExamples = true :=
    branchStep_table_inExamples cfg i st hEx hBar
  simp only [processLine]
  rw [if_neg hnb]
  rw [List.filter_append, List.filter_append, List.filter_append]
  rw [filter_eq_nil_of_kind fun x hx => BranchIssueShape_not_RW (branchStep_mem hx)]
  rw [filter_eq_nil_of_kind
    (fun x hx => by simp [isRWIssue, (boundaryIssues_mem hx).1] :
      ∀ x ∈ boundaryIssues cfg total i (pyStrip l)
        (branchStep cfg i (pyStrip l) st).1, isRWIssue x = false)]
  rw [filter_eq_nil_of_kind
    (fun x hx => by simp [isRWIssue, badPlaceholderIssues_mem hx] :
      ∀ x ∈ badPlaceholderIssues (pyStrip l) i, isRWIssue x = false)]
  rw [if_neg (by simp [hst1, hBar])]
  rfl

/-! ### Malformed-placeholder spans (claim C5) -/

theorem matchQuoted_shape {q : Char} {cs tok rest : List Char}
    (h : matchQuoted q cs = some (tok, rest)) :
    ∃ mid, tok = q :: (mid ++ [q]) ∧ q ∉ mid := by
  cases cs with
  | nil => simp [matchQuoted] at h
  | cons c cs' =>
    simp only [matchQuoted] at h
    split at h
    · split at h
      · simp only [Option.some.injEq, Prod.mk.injEq] at h
        refine ⟨cs'.takeWhile (· ≠ q), h.1.symm, ?_⟩
        intro hq
        have := List.mem_takeWhile_imp hq
        simp at this
      · simp at h
    · simp at h

theorem scanAll_mem {m : List Char → Option (List Char × List Char)}
    {P : List Char → Prop}
    (hP : ∀ cs tok rest, m cs = some (tok, rest) → P tok) :
    ∀ (fuel : Nat) (cs : List Char) (tok : List Char),
      tok ∈ scanAll m fuel cs → P tok := by
  intro fuel
  induction fuel with
  | zero => intro cs tok h; simp [scanAll] at h
  | succ fuel ih =>
    intro cs tok h
    cases cs with
    | nil => simp [scanAll] at h
    | cons c cs' =>
      unfold scanAll at h
      split at h
      · next tok' rest heq =>
        rcases List.mem_cons.mp h with h | h
        · rw [h]; exact hP _ _ _ heq
        · exact ih _ _ h
      · exact ih _ _ h

/-- Every span found by the `bad_placeholder_pattern` begins and ends with a
single quote. -/
theorem pyFindAll_bad_quotes {line : String} {bp : String}
    (h : bp ∈ pyFindAll matchBadPlaceholder line) :
    pyStartsWith bp "'" = true ∧ pyEndsWith bp "'" = true := by
  unfold pyFindAll at h
  rcases List.mem_map.mp h with ⟨tok, htok, hmk⟩
  obtain ⟨mid, hshape, _⟩ :=
    scanAll_mem (P := fun t => ∃ mid, t = '\'' :: (mid ++ ['\'']) ∧ '\'' ∉ mid)
      (fun _ _ _ hm => matchQuoted_shape hm) _ _ _ htok
  subst hmk
  constructor
  · show List.isPrefixOf _ _ = true
    rw [show (String.mk tok).data = tok from rfl, hshape]
    simp [List.isPrefixOf]
  · show List.isSuffixOf _ _ = true
    rw [show (String.mk tok).data = tok from rfl, hshape]
    unfold List.isSuffixOf
    simp [List.isPrefixOf]

theorem badGo_all_first (i : Int) :
    ∀ (bps : List String),
      (∀ bp ∈ bps, pyStartsWith bp "'" = true ∧ pyEndsWith bp "'" = true) →
      badGo i bps = bps.map (fun bp =>
        ("Invalid Placeholder Syntax",
         "Placeholder '" ++ bp
           ++ "' should use angle brackets with double quotes (e.g., <\""
           ++ pyStripChars ['\''] bp ++ "\">) instead of single quotes", i)) := by
  intro bps
  induction bps with
  | nil => intro _; rfl
  | cons bp rest ih =>
    intro h
    obtain ⟨h1, h2⟩ := h bp (by simp)
    unfold badGo
    simp only [h1, h2]
    rw [ih (fun b hb => h b (by simp [hb]))]
    simp

/-- The malformed-placeholder loop always takes its first arm: the
missing-closing-quote and missing-opening-quote reports are unreachable. -/
theorem badPlaceholderIssues_all_first (line : String) (i : Int) :
    badPlaceholderIssues line i
      = (pyFindAll matchBadPlaceholder line).map (fun bp =>
        ("Invalid Placeholder Syntax",
         "Placeholder '" ++ bp
           ++ "' should use angle brackets with double quotes (e.g., <\""
           ++ pyStripChars ['\''] bp ++ "\">) instead of single quotes", i)) := by
  unfold badPlaceholderIssues
  exact badGo_all_first i _ (fun bp hbp => pyFindAll_bad_quotes hbp)

/-! ### The placeholder-order walk (claim C7) -/

theorem lastIdxAux_ge (x : String) :
    ∀ (l : List String) (i acc : Int), -1 ≤ acc → 0 ≤ i →
      -1 ≤ lastIdxAux x l i acc := by
  intro l
  induction l with
  | nil => intro i acc hacc _; exact hacc
  | cons h t ih =>
    intro i acc hacc hi
    unfold lastIdxAux
    apply ih
    · split
      · omega
      · exact hacc
    · omega

theorem lastIdx_ge (l : List String) (x : String) : -1 ≤ lastIdx l x :=
  lastIdxAux_ge x l 0 (-1) (by omega) (by omega)

/-- The code's ordering loop computes exactly the walk described by the
specification. -/
theorem orderGo_eq_orderSpecWalk (headers steps : List String) (start i : Int) :
    ∀ (phs : List String) (lastPos : Int),
      orderGo headers steps start i lastPos phs
        = orderSpecWalk headers steps start i lastPos phs := by
  intro phs
  induction phs with
  | nil => intro lastPos; rfl
  | cons ph rest ih =>
    intro lastPos
    simp only [orderGo, orderSpecWalk]
    by_cases hpos : lastIdx headers (phName ph) = -1
    · rw [if_pos hpos, if_neg (by omega), if_neg (by omega), List.nil_append, ih]
    · have h0 : 0 ≤ lastIdx headers (phName ph) := by
        have := lastIdx_ge headers (phName ph)
        omega
      rw [if_neg hpos, if_pos h0, ih]
      by_cases hlt : lastIdx headers (phName ph) < lastPos
      · rw [if_pos hlt, if_pos (show 0 ≤ lastIdx headers (phName ph)
          ∧ lastIdx headers (phName ph) < lastPos from ⟨h0, hlt⟩)]
      · rw [if_neg hlt, if_neg (show ¬(0 ≤ lastIdx headers (phName ph)
          ∧ lastIdx headers (phName ph) < lastPos) from by omega)]

/-! ### Placeholder-mismatch reporting positions (claim C2) -/

theorem firstIdxContainingAux_spec (ph : String) :
    ∀ (steps : List String) (k : Int), 0 ≤ k →
      (firstIdxContainingAux ph k steps = -1
        ∧ ∀ s ∈ steps, strContains s ph = false)
      ∨ ∃ (j : Nat) (hj : j < steps.length),
          firstIdxContainingAux ph k steps = k + j
          ∧ strContains (steps.get ⟨j, hj⟩) ph = true
          ∧ ∀ (j' : Nat) (hlt : j' < j),
              strContains (steps.get ⟨j', by omega⟩) ph = false := by
  intro steps
  induction steps with
  | nil =>
    intro k _
    exact Or.inl ⟨rfl, by simp⟩
  | cons s ss ih =>
    intro k hk
    by_cases hc : strContains s ph = true
    · refine Or.inr ⟨0, by simp, ?_, by simpa using hc, by omega⟩
      unfold firstIdxContainingAux
      rw [if_pos hc]
      simp
    · have hcf : strContains s ph = false := by
        cases h : strContains s ph
        · rfl
        · exact absurd h hc
      rcases ih (k + 1) (by omega) with ⟨heq, hall⟩ | ⟨j, hj, heq, hcont, hpre⟩
      · refine Or.inl ⟨?_, ?_⟩
        · unfold firstIdxContainingAux
          rw [if_neg hc]
          exact heq
        · intro t ht
          rcases List.mem_cons.mp ht with ht | ht
          · rw [ht]; exact hcf
          · exact hall t ht
      · refine Or.inr ⟨j + 1, by simpa using Nat.succ_lt_succ hj, ?_, ?_, ?_⟩
        · unfold firstIdxContainingAux
          rw [if_neg hc, heq]
          push_cast
          omega
        · simpa using hcont
        · intro j' hj'
          cases j' with
          | zero => simpa using hcf
          | succ j'' =>
            have hj'' : j'' < j := by omega
            simpa using hpre j'' hj''

theorem firstIdxContaining_spec (ph : String) (steps : List String) :
    (firstIdxContaining steps ph = -1 ∧ ∀ s ∈ steps, strContains s ph = false)
    ∨ ∃ (j : Nat) (hj : j < steps.length),
        firstIdxContaining steps ph = j
        ∧ strContains (steps.get ⟨j, hj⟩) ph = true
        ∧ ∀ (j' : Nat) (hlt : j' < j),
            strContains (steps.get ⟨j', by omega⟩) ph = false := by
  have := firstIdxContainingAux_spec ph steps 0 (by omega)
  unfold firstIdxContaining
  rcases this with h | ⟨j, hj, heq, hcont, hpre⟩
  · exact Or.inl h
  · exact Or.inr ⟨j, hj, by omega, hcont, hpre⟩

/-- Where a placeholder-mismatch issue is reported: at
`scenario_start_line + j` for `j` the 0-based position of the first
buffered step text containing the token, or at the current (header-row)
line when no step contains it. -/
theorem mismatchGo_sound (headers steps : List String) (start i : Int) :
    ∀ (phs : List String) (x : Issue), x ∈ mismatchGo headers steps start i phs →
      ∃ ph, ph ∈ phs ∧ phName ph ∉ headers
        ∧ x.1 = "Placeholder Mismatch"
        ∧ x.2.1 = "Placeholder '" ++ ph
            ++ "' does not match any column heading in the Examples table (case-sensitive)"
        ∧ ((∃ (j : Nat) (hj : j < steps.length), x.2.2 = start + j
              ∧ strContains (steps.get ⟨j, hj⟩) ph = true
              ∧ ∀ (j' : Nat) (hj' : j' < j),
                  strContains (steps.get ⟨j', by omega⟩) ph = false)
           ∨ ((∀ s ∈ steps, strContains s ph = false) ∧ x.2.2 = i)) := by
  intro phs
  induction phs with
  | nil => intro x hx; simp [mismatchGo] at hx
  | cons ph rest ih =>
    intro x hx
    simp only [mismatchGo, List.mem_append] at hx
    rcases hx with hx | hx
    · split at hx
      · simp at hx
      · next hnm =>
        simp only [List.mem_singleton] at hx
        refine ⟨ph, by simp, hnm, by rw [hx], by rw [hx], ?_⟩
        rcases firstIdxContaining_spec ph steps with ⟨heq, hall⟩ | ⟨j, hj, heq, hcont, hpre⟩
        · refine Or.inr ⟨hall, ?_⟩
          rw [hx]
          simp only [heq]
          simp
        · refine Or.inl ⟨j, hj, ?_, hcont, fun j' hj' => hpre j' hj'⟩
          rw [hx]
          simp only [heq]
          rw [if_pos (by omega)]
          omega
    · obtain ⟨ph', hmem, hrest⟩ := ih x hx
      exact ⟨ph', List.mem_cons_of_mem ph hmem, hrest⟩

/-! ### Claim theorems -/

/-- C1: the drive-cycle `When` rule does **not** fire at a `Scenario`-line
boundary — the counters are reset before the boundary check runs, so a
non-final scenario containing a `When` step (line 3 of the first document,
inside the scenario starting at line 2) produces no
`"When not allowed in Drive Cycle format"` issue at all; only the last
scenario is checked, at end-of-document, where even two `When` steps yield
exactly one issue at the scenario's start line. -/
theorem C1_theorem :
    pyStartsWith (pyStrip "When x") "When" = true
    ∧ (processFile cfgDriveCycleNoSpell "demo.feature"
        ["Feature: f", "Scenario: A", "When x", "Scenario: B", "Given y"]
        (mkTestReport none "TS")).issues = []
    ∧ (processFile cfgDriveCycleNoSpell "demo.feature"
        ["Feature: f", "Scenario: A", "When x", "When y"]
        (mkTestReport none "TS")).issues
      = [("Syntax Error", dcWhenMsg, 2)] := by
  exact ⟨by decide, by decide, by decide⟩

/-- C2 counterexample: the mismatch for `<"x">` is reported at line 2 (the
`Scenario` line: `scenario_start_line + step index 0`), although the first
— and only — step text containing the token is the document's line 3. -/
theorem C2_counterexample :
    (processFile cfgStandardNoSpell "demo.feature"
      ["Feature: f", "Scenario: s", "Given <\"x\"> thing", "Examples:", "| y |",
       "| 1 |"]
      (mkTestReport none "TS")).issues
      = [("Placeholder Mismatch",
          "Placeholder '<\"x\">' does not match any column heading in the Examples table (case-sensitive)",
          2)]
    ∧ strContains (pyStrip "Given <\"x\"> thing") "<\"x\">" = true := by
  exact ⟨by decide, by decide⟩

/-- C2 (amended): every placeholder-mismatch issue is reported at
`scenario_start_line + j` where `j` is the 0-based index of the first
buffered step text containing the token (not that step's line number), with
the current table-row line as fallback when no buffered step contains it. -/
theorem C2_theorem (headers steps : List String) (start i : Int) :
    ∀ (phs : List String) (x : Issue), x ∈ mismatchGo headers steps start i phs →
      ∃ ph, ph ∈ phs ∧ phName ph ∉ headers
        ∧ x.1 = "Placeholder Mismatch"
        ∧ x.2.1 = "Placeholder '" ++ ph
            ++ "' does not match any column heading in the Examples table (case-sensitive)"
        ∧ ((∃ (j : Nat) (hj : j < steps.length), x.2.2 = start + j
              ∧ strContains (steps.get ⟨j, hj⟩) ph = true
              ∧ ∀ (j' : Nat) (hj' : j' < j),
                  strContains (steps.get ⟨j', by omega⟩) ph = false)
           ∨ ((∀ s ∈ steps, strContains s ph = false) ∧ x.2.2 = i)) :=
  mismatchGo_sound headers steps start i

theorem C2_witness :
    (("Placeholder Mismatch",
      "Placeholder '<\"x\">' does not match any column heading in the Examples table (case-sensitive)",
      (2 : Int)) : Issue)
      ∈ mismatchGo ["y"] ["Given <\"x\"> thing"] 2 5 ["<\"x\">"]
    ∧ ∃ ph, ph ∈ ["<\"x\">"] ∧ phName ph ∉ ["y"]
        ∧ (("Placeholder Mismatch",
            "Placeholder '<\"x\">' does not match any column heading in the Examples table (case-sensitive)",
            (2 : Int)) : Issue).1 = "Placeholder Mismatch"
        ∧ (("Placeholder Mismatch",
            "Placeholder '<\"x\">' does not match any column heading in the Examples table (case-sensitive)",
            (2 : Int)) : Issue).2.1 = "Placeholder '" ++ ph
            ++ "' does not match any column heading in the Examples table (case-sensitive)"
        ∧ ((∃ (j : Nat) (hj : j < (["Given <\"x\"> thing"] : List String).length),
              (("Placeholder Mismatch",
                "Placeholder '<\"x\">' does not match any column heading in the Examples table (case-sensitive)",
                (2 : Int)) : Issue).2.2 = 2 + j
              ∧ strContains ((["Given <\"x\"> thing"] : List String).get ⟨j, hj⟩) ph = true
              ∧ ∀ (j' : Nat) (hj' : j' < j),
                  strContains ((["Given <\"x\"> thing"] : List String).get
                    ⟨j', by omega⟩) ph = false)
           ∨ ((∀ s ∈ (["Given <\"x\"> thing"] : List String),
                strContains s ph = false)
              ∧ (("Placeholder Mismatch",
                  "Placeholder '<\"x\">' does not match any column heading in the Examples table (case-sensitive)",
                  (2 : Int)) : Issue).2.2 = 5)) :=
  ⟨by decide,
   C2_theorem ["y"] ["Given <\"x\"> thing"] 2 5 ["<\"x\">"] _ (by decide)⟩

/-- C3 counterexample: `"foo"` is in the custom-word set, yet because the
shared cache is consulted first and already holds non-empty suggestions for
it, the scan reports it as misspelled. -/
theorem C3_counterexample :
    "foo" ∈ cfgSharedCacheFoo.customWords
    ∧ (processFile cfgSharedCacheFoo "demo.feature" ["Feature: f", "Given foo"]
        (mkTestReport none "TS")).misspelledWords = [("foo", 2, ["food"])] := by
  exact ⟨by decide, by decide⟩

theorem C3_witness :
    "foo" ∈ cfgCustomFooNoCache.customWords
    ∧ lookupStr "foo" cfgCustomFooNoCache.spellCache = none
    ∧ (processFile cfgCustomFooNoCache "demo.feature" ["Feature: f", "Given foo"]
        (mkTestReport none "TS")).misspelledWords.filter
        (fun m => m.1 == "foo") = [] :=
  ⟨by decide, by decide,
   C3_theorem cfgCustomFooNoCache "demo.feature" "TS" none
     ["Feature: f", "Given foo"] "foo" (by decide) (by decide)⟩

/-- C4 counterexample: the first `|` row of an Examples block (line 5) is
spellchecked — the scan produces a Misspelling from that row's content. -/
theorem C4_counterexample :
    pyStartsWith (pyStrip "| xyzzy |") "|" = true
    ∧ (processFile cfgSpellXyzzy "demo.feature"
        ["Feature: f", "Scenario: s", "Given a", "Examples:", "| xyzzy |"]
        (mkTestReport none "TS")).misspelledWords = [("xyzzy", 5, ["abc"])] := by
  exact ⟨by decide, by decide⟩

/-- C4 (amended): a `|`-delimited row inside an Examples block is exempt
from the repeated-word check, but not from spellcheck: a second document's
header row still yields a Misspelling from its cell content. -/
theorem C4_theorem :
    (∀ (cfg : CheckerConfig) (total i : Int) (l : String) (st : ScanState),
      st.inExamples = true → pyStartsWith (pyStrip l) "|" = true →
      (processLine cfg total i l st).2.1.filter isRWIssue = [])
    ∧ (processFile cfgSpellQwghlm "demo.feature"
        ["Feature: g", "Scenario: t", "Given b", "Examples:", "| qwghlm |"]
        (mkTestReport none "TS")).misspelledWords = [("qwghlm", 5, ["x"])] :=
  ⟨fun cfg total i l st hEx hBar => processLine_table_noRW cfg total i st hEx hBar,
   by decide⟩

theorem C4_witness :
    ({ initialScanState [] with inExamples := true } : ScanState).inExamples = true
    ∧ pyStartsWith (pyStrip "| a a |") "|" = true
    ∧ (processLine cfgStandardNoSpell 5 5 "| a a |"
        { initialScanState [] with inExamples := true }).2.1.filter isRWIssue = [] :=
  ⟨rfl, by decide,
   C4_theorem.1 cfgStandardNoSpell 5 5 "| a a |"
     { initialScanState [] with inExamples := true } rfl (by decide)⟩

/-- C5: a single-quoted span missing its closing quote produces **no**
Invalid Placeholder Syntax issue — the pattern `'[^']*'` only matches spans
that have both quotes, so the malformed-placeholder loop always takes its
first arm and the missing-quote reports are unreachable. -/
theorem C5_theorem :
    (processFile cfgStandardNoSpell "demo.feature"
      ["Feature: f", "Scenario: s", "Given 'name is missing"]
      (mkTestReport none "TS")).issues = []
    ∧ ∀ (line : String) (i : Int),
      badPlaceholderIssues line i
        = (pyFindAll matchBadPlaceholder line).map (fun bp =>
          ("Invalid Placeholder Syntax",
           "Placeholder '" ++ bp
             ++ "' should use angle brackets with double quotes (e.g., <\""
             ++ pyStripChars ['\''] bp ++ "\">) instead of single quotes", i)) :=
  ⟨by decide, badPlaceholderIssues_all_first⟩

/-- C7: the placeholder-order loop equals the walk described by the
specification (issue exactly when a known token's column index is strictly
below the running `last_position`, which advances by `max`, unknown tokens
skipped), and on headers `[A, B, C]` steps referencing `B` then `A` yield
exactly one PlaceholderOrder issue (for `<"A">`), while `A, B, C` in order
yield none. -/
theorem C7_theorem :
    (∀ (headers steps : List String) (start i : Int) (phs : List String)
      (lastPos : Int),
      orderGo headers steps start i lastPos phs
        = orderSpecWalk headers steps start i lastPos phs)
    ∧ (processFile cfgStandardNoSpell "demo.feature"
        ["Feature: f", "Scenario: s", "Given <\"B\"> x", "And <\"A\"> y",
         "Examples:", "| A | B | C |", "| 1 | 2 | 3 |"]
        (mkTestReport none "TS")).issues
      = [("Placeholder Order",
          "Placeholder '<\"A\">' used out of sequence relative to Examples table column headings",
          3)]
    ∧ (processFile cfgStandardNoSpell "demo.feature"
        ["Feature: f", "Scenario: s", "Given <\"A\"> x", "And <\"B\"> y",
         "And <\"C\"> z", "Examples:", "| A | B | C |", "| 1 | 2 | 3 |"]
        (mkTestReport none "TS")).issues = [] :=
  ⟨fun headers steps start i phs lastPos =>
    orderGo_eq_orderSpecWalk headers steps start i phs lastPos,
   by decide, by decide⟩

/-- C9 counterexample: an invalid feature-type tag is silently accepted —
the constructor stores it verbatim and a scan proceeds normally, behaving
exactly like the standard feature type. -/
theorem C9_counterexample :
    cfgBogusNoSpell.featureType = "not_a_feature_type"
    ∧ (processFile cfgBogusNoSpell "demo.feature"
        ["Feature: f", "Scenario: s", "When w"] (mkTestReport none "TS")).issues
      = (processFile cfgStandardNoSpell "demo.feature"
          ["Feature: f", "Scenario: s", "When w"] (mkTestReport none "TS")).issues := by
  exact ⟨rfl, by decide⟩

/-- C9 (amended): `generate_report` fails fast with
`"Unsupported report format: ..."` on any format other than `"text"` and
`"json"` (and, being read-only, leaves the report unchanged), while an
invalid feature-type tag is *not* rejected: it is stored as-is and the scan
completes normally. -/
theorem C9_theorem :
    (∀ (r : TestReport) (format : String), format ≠ "text" → format ≠ "json" →
      generateReport r format
        = .error ("Unsupported report format: " ++ format))
    ∧ cfgBogusNoSpell.featureType = "not_a_feature_type"
    ∧ (processFile cfgBogusNoSpell "demo.feature"
        ["Feature: f", "Scenario: s", "Given a"] (mkTestReport none "TS")).issues
      = [] := by
  refine ⟨?_, rfl, by decide⟩
  intro r format h1 h2
  unfold generateReport
  rw [if_neg h1, if_neg h2]

theorem C9_witness :
    ("xml" : String) ≠ "text" ∧ ("xml" : String) ≠ "json"
    ∧ generateReport (mkTestReport none "2025-01-01") "xml"
      = .error ("Unsupported report format: " ++ "xml") :=
  ⟨by decide, by decide,
   C9_theorem.1 (mkTestReport none "2025-01-01") "xml" (by decide) (by decide)⟩

/-- C10: with `syntax` and `drive_cycle` enabled and feature type
`drive_cycle`, adding one Syntax Error issue whose description contains
`"Drive Cycle"` raises `get_total_errors` by 2 (it is counted by both the
syntax and the drive-cycle category); symmetrically for
`success_criteria` with `"Success Criteria"`. -/
theorem C10_theorem :
    (∀ (r : TestReport) (d : String) (n : Int),
      r.enabledChecks.checkSyntax = true →
      r.enabledChecks.checkDriveCycle = true →
      r.featureType = "drive_cycle" →
      strContains d "Drive Cycle" = true →
      getTotalErrors (addIssue r "Syntax Error" d n) = getTotalErrors r + 2)
    ∧ (∀ (r : TestReport) (d : String) (n : Int),
      r.enabledChecks.checkSyntax = true →
      r.enabledChecks.checkSuccessCriteria = true →
      r.featureType = "success_criteria" →
      strContains d "Success Criteria" = true →
      getTotalErrors (addIssue r "Syntax Error" d n) = getTotalErrors r + 2) := by
  constructor
  · intro r d n h1 h2 h3 h4
    unfold getTotalErrors addIssue countKind
    simp [List.filter_append, h1, h2, h3, h4]
    omega
  · intro r d n h1 h2 h3 h4
    unfold getTotalErrors addIssue countKind
    simp [List.filter_append, h1, h2, h3, h4]
    omega

theorem C10_witness :
    ((setFeatureType (mkTestReport none "TS") "drive_cycle").enabledChecks.checkSyntax
        = true
      ∧ (setFeatureType (mkTestReport none "TS")
          "drive_cycle").enabledChecks.checkDriveCycle = true
      ∧ (setFeatureType (mkTestReport none "TS") "drive_cycle").featureType
        = "drive_cycle"
      ∧ strContains dcWhenMsg "Drive Cycle" = true
      ∧ getTotalErrors (addIssue (setFeatureType (mkTestReport none "TS")
          "drive_cycle") "Syntax Error" dcWhenMsg 2)
        = getTotalErrors (setFeatureType (mkTestReport none "TS") "drive_cycle") + 2)
    ∧ ((setFeatureType (mkTestReport none "TS")
          "success_criteria").enabledChecks.checkSyntax = true
      ∧ (setFeatureType (mkTestReport none "TS")
          "success_criteria").enabledChecks.checkSuccessCriteria = true
      ∧ (setFeatureType (mkTestReport none "TS") "success_criteria").featureType
        = "success_criteria"
      ∧ strContains (scGivenMsg 2) "Success Criteria" = true
      ∧ getTotalErrors (addIssue (setFeatureType (mkTestReport none "TS")
          "success_criteria") "Syntax Error" (scGivenMsg 2) 4)
        = getTotalErrors (setFeatureType (mkTestReport none "TS")
            "success_criteria") + 2) :=
  ⟨⟨by decide, by decide, by decide, by decide,
    C10_theorem.1 (setFeatureType (mkTestReport none "TS") "drive_cycle")
      dcWhenMsg 2 (by decide) (by decide) (by decide) (by decide)⟩,
   ⟨by decide, by decide, by decide, by decide,
    C10_theorem.2 (setFeatureType (mkTestReport none "TS") "success_criteria")
      (scGivenMsg 2) 4 (by decide) (by decide) (by decide) (by decide)⟩⟩

end GV8
